import Mathlib

/-!
# Lottery client state store (`src/app/context/context.js`)

A shallow embedding of the `AppProvider` logic: the participant grouping of
`getParticipants`, the backward round scan of `getHistory`, the
synchronization cycle `updateState`, the five actions and the derived
`isFinished` / `canClaim` values.

Conventions of the embedding.

* Account addresses and public keys are natural numbers (they are only ever
  compared and passed around).
* `u32` fields decoded by the program interface are JavaScript numbers; they
  are natural numbers here.  No arithmetic in the modelled code can overflow.
* A rejected promise / thrown exception carries its `message` string.
* React state is the record `Store`; a setter call is a record update.  The
  values a function reads from its closure are the fields of the store it was
  started from.
-/

namespace Lottery

/-! ## Data model -/

/-- An account address or wallet public key. -/
abbrev Address := Nat

/-- The decoded `master` account: `master.lastId`. -/
structure Master where
  lastId : Nat
  deriving DecidableEq, Repr

/-- The decoded `lottery` account.  `winnerId` is `null` until a winner is
picked. -/
structure LotteryAccount where
  id : Nat
  authority : Address
  ticketPrice : Nat
  lastTicketId : Nat
  winnerId : Option Nat
  claimed : Bool
  deriving DecidableEq, Repr

/-- The decoded `ticket` account: `{ id, lotteryId, authority }`. -/
structure TicketAccount where
  id : Nat
  lotteryId : Nat
  authority : Address
  deriving DecidableEq, Repr

/-- One element of `program.account.ticket.all()`: `{ publicKey, account }`. -/
structure TicketItem where
  publicKey : Address
  account : TicketAccount
  deriving DecidableEq, Repr

/-- A roster entry `{ publicKey, account: { id, authority } }` as built by the
reduce callback of `getParticipants` (the ticket without its `lotteryId`). -/
structure Participant where
  publicKey : Address
  id : Nat
  authority : Address
  deriving DecidableEq, Repr

/-- A roster `{ lotteryId, count, participants }`. -/
structure Roster where
  lotteryId : Nat
  count : Nat
  participants : List Participant
  deriving DecidableEq, Repr

/-- The accumulator object of the reduce: a finite map from `lotteryId` to its
roster, kept as an association list with pairwise distinct keys.  The program
only reads it by key (`participants[id]`). -/
abbrev Rosters := List (Nat × Roster)

/-- Property read `acc[k]`; `none` is `undefined`. -/
def Rosters.get : Rosters → Nat → Option Roster
  | [], _ => none
  | (k', r) :: rest, k => if k' = k then some r else Rosters.get rest k

/-- Property write `acc[k] = r` (also used for the in-place mutation of the
roster stored under `k`). -/
def Rosters.set : Rosters → Nat → Roster → Rosters
  | [], k, r => [(k, r)]
  | (k', r') :: rest, k, r =>
    if k' = k then (k, r) :: rest else (k', r') :: Rosters.set rest k r

/-- The entry pushed for a ticket: `{ publicKey, account: { id, authority } }`. -/
def participantOf (item : TicketItem) : Participant :=
  { publicKey := item.publicKey, id := item.account.id, authority := item.account.authority }

/-- The reduce callback of `getParticipants` (context.js lines 142-155). -/
def reducer (acc : Rosters) (item : TicketItem) : Rosters :=
  match acc.get item.account.lotteryId with
  | none =>
    acc.set item.account.lotteryId
      { lotteryId := item.account.lotteryId, count := 1, participants := [participantOf item] }
  | some r =>
    acc.set item.account.lotteryId
      { r with count := r.count + 1, participants := r.participants ++ [participantOf item] }

/-- The expression `response.reduce(callback, {})`. -/
def groupTickets (response : List TicketItem) : Rosters :=
  response.foldl reducer []

/-- The result of a fetch: the record, or the message of the rejection. -/
abbrev Fetch (α : Type) := Except String α

/-- The remote program as seen by one run of a function: what each account
fetch answers. -/
structure Chain where
  -- program.account.master.fetch(address)
  master : Address → Fetch Master
  -- program.account.lottery.fetch(address)
  lottery : Address → Fetch LotteryAccount
  -- program.account.ticket.fetch(address)
  ticket : Address → Fetch TicketAccount
  -- program.account.ticket.all()
  ticketAll : Fetch (List TicketItem)
  -- program.account.ticket.all([memcmp lotteryId at offset 12, memcmp owner at offset 16])
  ticketAllBy : Nat → Address → Fetch (List TicketItem)

/-- The function `getParticipants` (context.js lines 139-160): the grouping of
all tickets, or `undefined` (`none`) when the fetch throws and the `catch`
logs the error. -/
def getParticipants (chain : Chain) : Option Rosters :=
  match chain.ticketAll with
  | .ok response => some (groupTickets response)
  | .error _ => none

/-- Sum of the `count` fields over all rosters of the map. -/
def Rosters.totalCount (m : Rosters) : Nat :=
  (m.map (fun kr => kr.2.count)).sum

/-- All roster entries of the map, each paired with the key of its roster. -/
def Rosters.entries (m : Rosters) : List (Nat × Participant) :=
  m.flatMap (fun kr => kr.2.participants.map (fun p => (kr.1, p)))

/-- The tickets of round `r`, in input order, as roster entries. -/
def ticketsOfRound (response : List TicketItem) (r : Nat) : List Participant :=
  (response.filter (fun t => t.account.lotteryId = r)).map participantOf

/-! ## Helpers imported from `../utils/program`

`getMasterAddress`, `getLotteryAddress`, `getTicketAddress` and `getTotalPrize`
are not part of the modelled file; they are deterministic functions of their
arguments and are taken as parameters. -/

/-- The address and prize helpers imported by context.js. -/
structure Helpers where
  getMasterAddress : Address
  getLotteryAddress : Nat → Address
  getTicketAddress : Address → Nat → Address
  getTotalPrize : LotteryAccount → Nat

/-! ## React state -/

/-- One entry pushed on the history array by `getHistory`;
`participants` is `participants[id]`, `undefined` when the map has no such key. -/
structure Snapshot where
  lotteryId : Nat
  winnerId : Nat
  winnerAddress : Address
  prize : Nat
  participants : Option Roster
  deriving DecidableEq, Repr

/-- The values taken by the state `userWinningId`: the initial `false`, `null`,
or a winner id. -/
inductive WinningId where
  | unset
  | null
  | id (n : Nat)
  deriving DecidableEq, Repr

/-- The `useState` cells of `AppProvider` that the modelled functions read or
write (`lotteryPot` and `lotteryPlayers`, written only by `getPot` and
`getPlayers`, are left out). -/
structure Store where
  masterAddress : Option Address
  lotteryAddress : Option Address
  lottery : Option LotteryAccount
  lotteryId : Option Nat
  lotteryHistory : List Snapshot
  userWinningId : WinningId
  error : String
  success : String
  intialized : Bool
  deriving DecidableEq, Repr

/-- The initial values given to `useState`. -/
def Store.initial : Store :=
  { masterAddress := none, lotteryAddress := none, lottery := none, lotteryId := none,
    lotteryHistory := [], userWinningId := .unset, error := "", success := "",
    intialized := false }

/-- JavaScript truthiness of a `number | null` value such as `lottery.winnerId`. -/
def truthy : Option Nat → Bool
  | some n => n != 0
  | none => false

/-- JavaScript truthiness of the state `userWinningId`. -/
def WinningId.truthy : WinningId → Bool
  | .id n => n != 0
  | _ => false

/-- The value stored by `setUserWinningId(lottery.winnerId)`. -/
def WinningId.ofWinner : Option Nat → WinningId
  | some n => .id n
  | none => .null

/-- Truthiness of the exposed `isFinished: lottery && lottery.winnerId`. -/
def isFinished (s : Store) : Bool :=
  match s.lottery with
  | none => false
  | some lottery => truthy lottery.winnerId

/-- Truthiness of the exposed
`canClaim: lottery && !lottery.claimed && userWinningId`. -/
def canClaim (s : Store) : Bool :=
  match s.lottery with
  | none => false
  | some lottery => !lottery.claimed && s.userWinningId.truthy

/-! ## `getHistory` -/

/-- A fetch issued against the program. -/
inductive Call where
  | ticketAll
  | lotteryFetch (address : Address)
  | ticketFetch (address : Address)
  deriving DecidableEq, Repr

/-- What a run of `getHistory` has done so far: the fetches issued, the local
array `history`, the state `lotteryHistory`, and the exception that ended the
run, if any (the promise returned by `getHistory` is then rejected). -/
structure HistoryRun where
  calls : List Call
  history : List Snapshot
  lotteryHistory : List Snapshot
  thrown : Option String
  deriving DecidableEq, Repr

/-- The message of the `TypeError` raised by reading the property `name` of
`undefined` (the wording of V8). -/
def readOfUndefined (name : String) : String :=
  "Cannot read properties of undefined (reading \x27" ++ name ++ "\x27)"

/-- The message of the `TypeError` raised by `participants[id]` when
`getParticipants` returned `undefined`. -/
def undefinedParticipants (id : Nat) : String := readOfUndefined (toString id)

/-- The body of the `for (const i in new Array(lotteryId).fill(null))` loop of
`getHistory` (context.js lines 114-136), run over the remaining indices. -/
def historyLoop (H : Helpers) (chain : Chain) (lotteryId : Nat) (participants : Option Rosters) :
    List Nat → HistoryRun → HistoryRun
  | [], run => run
  | i :: rest, run =>
    let id := lotteryId - i
    if id = 0 then run
    else
      let lotteryAddress := H.getLotteryAddress id
      let run1 := { run with calls := run.calls ++ [Call.lotteryFetch lotteryAddress] }
      match chain.lottery lotteryAddress with
      | .error e => { run1 with thrown := some e }
      | .ok lottery =>
        match lottery.winnerId with
        | none => historyLoop H chain lotteryId participants rest run1
        | some winnerId =>
          if winnerId = 0 then historyLoop H chain lotteryId participants rest run1
          else
            let ticketWinnerAddress := H.getTicketAddress lotteryAddress winnerId
            let run2 := { run1 with calls := run1.calls ++ [Call.ticketFetch ticketWinnerAddress] }
            match chain.ticket ticketWinnerAddress with
            | .error e => { run2 with thrown := some e }
            | .ok ticketWinner =>
              match participants with
              | none => { run2 with thrown := some (undefinedParticipants id) }
              | some rosters =>
                let history := run2.history ++
                  [{ lotteryId := id, winnerId := winnerId, winnerAddress := ticketWinner.authority,
                     prize := H.getTotalPrize lottery, participants := rosters.get id }]
                historyLoop H chain lotteryId participants rest
                  { run2 with history := history, lotteryHistory := history }

/-- The function `getHistory` (context.js lines 106-137), started from a store
whose `lotteryId` is the closure value. -/
def getHistory (H : Helpers) (chain : Chain) (s : Store) : HistoryRun :=
  match s.lotteryId with
  | none => { calls := [], history := [], lotteryHistory := s.lotteryHistory, thrown := none }
  | some lotteryId =>
    if lotteryId = 0 then
      { calls := [], history := [], lotteryHistory := s.lotteryHistory, thrown := none }
    else
      historyLoop H chain lotteryId (getParticipants chain) (List.range lotteryId)
        { calls := [Call.ticketAll], history := [], lotteryHistory := s.lotteryHistory,
          thrown := none }

/-! ## `updateState` -/

/-- The number encoded by `new BN(lotteryId).toArrayLike(Buffer, "le", 4)` in
the ticket filter: the closure value of the state `lotteryId`, and `0` while
that state is still `undefined` (bn.js initialises from `number || 0`). -/
def filterLotteryId : Option Nat → Nat
  | some n => n
  | none => 0

/-- The `try` block of `updateState` (context.js lines 56-90).  `s` is the store
the function was started from: `s.masterAddress` and `s.lotteryId` are the
values in its closure.  The result is the store after the setter calls made,
and the message of the exception that left the block, if any. -/
def updateStateTry (H : Helpers) (chain : Chain) (wallet : Option Address) (s : Store) :
    Store × Option String :=
  let s1 : Store :=
    match s.masterAddress with
    | none => { s with masterAddress := some H.getMasterAddress }
    | some _ => s
  match chain.master (s.masterAddress.getD H.getMasterAddress) with
  | .error e => (s1, some e)
  | .ok master =>
    let s2 : Store := { s1 with intialized := true, lotteryId := some master.lastId }
    let lotteryAddress := H.getLotteryAddress master.lastId
    let s3 : Store := { s2 with lotteryAddress := some lotteryAddress }
    match chain.lottery lotteryAddress with
    | .error e => (s3, some e)
    | .ok lottery =>
      let s4 : Store := { s3 with lottery := some lottery }
      match wallet with
      | none => (s4, none)
      | some publicKey =>
        match chain.ticketAllBy (filterLotteryId s.lotteryId) publicKey with
        | .error e => (s4, some e)
        | .ok userTickets =>
          let userWin := userTickets.any (fun t => some t.account.id == lottery.winnerId)
          if userWin then
            ({ s4 with userWinningId := WinningId.ofWinner lottery.winnerId }, none)
          else
            ({ s4 with userWinningId := WinningId.null }, none)

/-- How a call of an async function of the provider ends: the store it leaves,
and the exception it throws to its caller, if any. -/
structure Outcome where
  store : Store
  thrown : Option String
  deriving DecidableEq, Repr

/-- The function `updateState` (context.js lines 52-94).  `program` is `none`
when there is no connection; the `catch` only logs `err.message`. -/
def updateState (H : Helpers) (program : Option Chain) (wallet : Option Address) (s : Store) :
    Outcome :=
  match program with
  | none => { store := s, thrown := none }
  | some chain => { store := (updateStateTry H chain wallet s).1, thrown := none }

/-- The snapshot fields of the store: initialized flag, round id, round
address, round record, eligibility. -/
def Store.snapshot (s : Store) :
    Bool × Option Nat × Option Address × Option LotteryAccount × WinningId :=
  (s.intialized, s.lotteryId, s.lotteryAddress, s.lottery, s.userWinningId)

/-! ## Actions -/

/-- The five actions exposed by the provider. -/
inductive Action where
  | initMaster
  | createLottery
  | buyTicket
  | pickWinner
  | claimPrize
  deriving DecidableEq, Repr

/-! Each action runs `setError(""); setSuccess("")`, then a `try` block that
derives the addresses, builds the transaction from `program.methods` with
`wallet.publicKey` among its accounts, sends it with `rpc()`, awaits
`confirmTx` and calls `updateState()`; the `catch` stores `err.message` with
`setError`.  The `try` block of an action up to, not including, the call of
`updateState()` is its transaction part. -/

/-- How the external steps of the transaction part of one action end.  The
address helpers are called here on state values that may still be `undefined`,
so their outcome is left open as well. -/
structure Submission where
  -- await getLotteryAddress(...)
  lotteryAddress : Fetch Unit
  -- await getTicketAddress(...)
  ticketAddress : Fetch Unit
  -- the rpc() call on the built transaction, then await confirmTx(txHash, connection)
  send : Fetch Unit

/-- A property read `x.name` inside a `try` block: a `TypeError` when `x` is
`undefined`. -/
def readProperty {α : Type} (name : String) : Option α → Except String Unit
  | some _ => .ok ()
  | none => .error (readOfUndefined name)

/-- The transaction part of `initMaster` (context.js lines 167-175). -/
def initMasterTry (program : Option Chain) (wallet : Option Address) (sub : Submission) :
    Except String Unit := do
  readProperty "methods" program
  readProperty "publicKey" wallet
  sub.send

/-- The transaction part of `createLottery` (context.js lines 190-200). -/
def createLotteryTry (program : Option Chain) (wallet : Option Address) (sub : Submission) :
    Except String Unit := do
  sub.lotteryAddress
  readProperty "methods" program
  readProperty "publicKey" wallet
  sub.send

/-- The transaction part of `buyTicket` (context.js lines 215-227); `lottery` is
the closure value of the state, read by `lottery.lastTicketId + 1`. -/
def buyTicketTry (program : Option Chain) (wallet : Option Address) (sub : Submission)
    (lottery : Option LotteryAccount) : Except String Unit := do
  sub.lotteryAddress
  readProperty "lastTicketId" lottery
  sub.ticketAddress
  readProperty "methods" program
  readProperty "publicKey" wallet
  sub.send

/-- The transaction part of `pickWinner` (context.js lines 242-251). -/
def pickWinnerTry (program : Option Chain) (wallet : Option Address) (sub : Submission) :
    Except String Unit := do
  sub.lotteryAddress
  readProperty "methods" program
  readProperty "publicKey" wallet
  sub.send

/-- The transaction part of `claimPrize` (context.js lines 266-276); the ticket
address is derived while the accounts object is built, before
`wallet.publicKey` is read. -/
def claimPrizeTry (program : Option Chain) (wallet : Option Address) (sub : Submission) :
    Except String Unit := do
  sub.lotteryAddress
  readProperty "methods" program
  sub.ticketAddress
  readProperty "publicKey" wallet
  sub.send

/-- The action `initMaster` (context.js lines 162-183). -/
def initMaster (H : Helpers) (program : Option Chain) (wallet : Option Address)
    (submit : Action → Submission) (s : Store) : Outcome :=
  let s0 : Store := { s with error := "", success := "" }
  match initMasterTry program wallet (submit .initMaster) with
  | .error message => { store := { s0 with error := message }, thrown := none }
  | .ok _ => updateState H program wallet s0

/-- The action `createLottery` (context.js lines 185-208). -/
def createLottery (H : Helpers) (program : Option Chain) (wallet : Option Address)
    (submit : Action → Submission) (s : Store) : Outcome :=
  let s0 : Store := { s with error := "", success := "" }
  match createLotteryTry program wallet (submit .createLottery) with
  | .error message => { store := { s0 with error := message }, thrown := none }
  | .ok _ => updateState H program wallet s0

/-- The action `buyTicket` (context.js lines 210-235). -/
def buyTicket (H : Helpers) (program : Option Chain) (wallet : Option Address)
    (submit : Action → Submission) (s : Store) : Outcome :=
  let s0 : Store := { s with error := "", success := "" }
  match buyTicketTry program wallet (submit .buyTicket) s.lottery with
  | .error message => { store := { s0 with error := message }, thrown := none }
  | .ok _ => updateState H program wallet s0

/-- The action `pickWinner` (context.js lines 237-259). -/
def pickWinner (H : Helpers) (program : Option Chain) (wallet : Option Address)
    (submit : Action → Submission) (s : Store) : Outcome :=
  let s0 : Store := { s with error := "", success := "" }
  match pickWinnerTry program wallet (submit .pickWinner) with
  | .error message => { store := { s0 with error := message }, thrown := none }
  | .ok _ => updateState H program wallet s0

/-- The action `claimPrize` (context.js lines 261-284). -/
def claimPrize (H : Helpers) (program : Option Chain) (wallet : Option Address)
    (submit : Action → Submission) (s : Store) : Outcome :=
  let s0 : Store := { s with error := "", success := "" }
  match claimPrizeTry program wallet (submit .claimPrize) with
  | .error message => { store := { s0 with error := message }, thrown := none }
  | .ok _ => updateState H program wallet s0

/-- The transaction part of the action named by `a`. -/
def actionTry (program : Option Chain) (wallet : Option Address) (submit : Action → Submission)
    (a : Action) (s : Store) : Except String Unit :=
  match a with
  | .initMaster => initMasterTry program wallet (submit .initMaster)
  | .createLottery => createLotteryTry program wallet (submit .createLottery)
  | .buyTicket => buyTicketTry program wallet (submit .buyTicket) s.lottery
  | .pickWinner => pickWinnerTry program wallet (submit .pickWinner)
  | .claimPrize => claimPrizeTry program wallet (submit .claimPrize)

/-- The action named by `a`. -/
def runAction (H : Helpers) (program : Option Chain) (wallet : Option Address)
    (submit : Action → Submission) (a : Action) (s : Store) : Outcome :=
  match a with
  | .initMaster => initMaster H program wallet submit s
  | .createLottery => createLottery H program wallet submit s
  | .buyTicket => buyTicket H program wallet submit s
  | .pickWinner => pickWinner H program wallet submit s
  | .claimPrize => claimPrize H program wallet submit s

/-! ## Interleaved synchronization cycles

`updateState` suspends at each fetch.  A cycle is the continuation of one call;
`Cycle.resume` delivers the answer of the pending fetch, taken from the chain
as it is at that moment, and runs the call up to its next fetch.  The address
derivations are pure and are not treated as suspension points. -/

/-- Where a call of `updateState` is suspended, with the local and closure
values its continuation uses. -/
inductive Cycle where
  | awaitMaster (address : Address) (closureLotteryId : Option Nat) (wallet : Option Address)
  | awaitLottery (lotteryAddress : Address) (closureLotteryId : Option Nat)
      (wallet : Option Address)
  | awaitTickets (lottery : LotteryAccount) (closureLotteryId : Option Nat) (publicKey : Address)
  | finished
  deriving DecidableEq, Repr

/-- Start of a call of `updateState` with a program present: the code up to the
master fetch. -/
def Cycle.start (H : Helpers) (wallet : Option Address) (s : Store) : Cycle × Store :=
  (Cycle.awaitMaster (s.masterAddress.getD H.getMasterAddress) s.lotteryId wallet,
    match s.masterAddress with
    | none => { s with masterAddress := some H.getMasterAddress }
    | some _ => s)

/-- Resumption of a suspended call when its pending fetch is answered by `chain`. -/
def Cycle.resume (H : Helpers) (chain : Chain) : Cycle → Store → Cycle × Store
  | .awaitMaster address closureLotteryId wallet, s =>
    match chain.master address with
    | .error _ => (.finished, s)
    | .ok master =>
      (.awaitLottery (H.getLotteryAddress master.lastId) closureLotteryId wallet,
        { s with intialized := true, lotteryId := some master.lastId,
                 lotteryAddress := some (H.getLotteryAddress master.lastId) })
  | .awaitLottery lotteryAddress closureLotteryId wallet, s =>
    match chain.lottery lotteryAddress with
    | .error _ => (.finished, s)
    | .ok lottery =>
      match wallet with
      | none => (.finished, { s with lottery := some lottery })
      | some publicKey =>
        (.awaitTickets lottery closureLotteryId publicKey, { s with lottery := some lottery })
  | .awaitTickets lottery closureLotteryId publicKey, s =>
    match chain.ticketAllBy (filterLotteryId closureLotteryId) publicKey with
    | .error _ => (.finished, s)
    | .ok userTickets =>
      if userTickets.any (fun t => some t.account.id == lottery.winnerId) then
        (.finished, { s with userWinningId := WinningId.ofWinner lottery.winnerId })
      else
        (.finished, { s with userWinningId := WinningId.null })
  | .finished, s => (.finished, s)

/-- The two cycles of a race. -/
inductive Tag where
  | A
  | B
  deriving DecidableEq, Repr

/-- An event of a run with two cycles: a call of `updateState` is made, or the
pending fetch of a cycle is answered by the chain as it is then. -/
inductive Event where
  | start (tag : Tag) (wallet : Option Address)
  | resolve (tag : Tag) (chain : Chain)

/-- The store together with the two cycles (`none`: not started yet). -/
structure Race where
  store : Store
  cycleA : Option Cycle
  cycleB : Option Cycle

/-- One event of a race. -/
def Race.step (H : Helpers) (r : Race) : Event → Race
  | .start .A wallet =>
    let p := Cycle.start H wallet r.store
    { r with store := p.2, cycleA := some p.1 }
  | .start .B wallet =>
    let p := Cycle.start H wallet r.store
    { r with store := p.2, cycleB := some p.1 }
  | .resolve .A chain =>
    match r.cycleA with
    | none => r
    | some c =>
      let p := Cycle.resume H chain c r.store
      { r with store := p.2, cycleA := some p.1 }
  | .resolve .B chain =>
    match r.cycleB with
    | none => r
    | some c =>
      let p := Cycle.resume H chain c r.store
      { r with store := p.2, cycleB := some p.1 }

/-- A sequence of events, from a store with no cycle running. -/
def Race.run (H : Helpers) (s : Store) (events : List Event) : Race :=
  events.foldl (Race.step H) { store := s, cycleA := none, cycleB := none }

/-! ## Specification-side descriptions of a history scan -/

/-- The exception that processing round `id` in the loop of `getHistory`
raises through a fetch, if any: the lottery fetch, or the fetch of the winning
ticket when the round has a (truthy) winner id. -/
def roundFailure (H : Helpers) (chain : Chain) (id : Nat) : Option String :=
  match chain.lottery (H.getLotteryAddress id) with
  | .error e => some e
  | .ok lottery =>
    match lottery.winnerId with
    | none => none
    | some w =>
      if w = 0 then none
      else
        match chain.ticket (H.getTicketAddress (H.getLotteryAddress id) w) with
        | .error e => some e
        | .ok _ => none

/-- The snapshot of a round with record `lottery`, winner id `w` and winning
ticket `ticketWinner`. -/
def snapshotOf (H : Helpers) (rosters : Rosters) (id : Nat) (lottery : LotteryAccount) (w : Nat)
    (ticketWinner : TicketAccount) : Snapshot :=
  { lotteryId := id, winnerId := w, winnerAddress := ticketWinner.authority,
    prize := H.getTotalPrize lottery, participants := rosters.get id }

/-- The snapshots contributed by round `id` when its fetches succeed: one if
the round has a winner, none otherwise. -/
def emitted (H : Helpers) (chain : Chain) (rosters : Rosters) (id : Nat) : List Snapshot :=
  match chain.lottery (H.getLotteryAddress id) with
  | .error _ => []
  | .ok lottery =>
    match lottery.winnerId with
    | none => []
    | some w =>
      if w = 0 then []
      else
        match chain.ticket (H.getTicketAddress (H.getLotteryAddress id) w) with
        | .error _ => []
        | .ok ticketWinner => [snapshotOf H rosters id lottery w ticketWinner]

/-- The round ids `n, n - 1, ..., n - m + 1`: the first `m` ids visited by a
scan that starts at `n`. -/
def scanIds (n m : Nat) : List Nat :=
  (List.range m).map (fun i => n - i)

/-- The history the specification asks for, for rounds `1..n` with records
`rounds` and winning tickets `winners`: one snapshot per round with a winner,
most recent round first. -/
def expectedHistory (H : Helpers) (rosters : Rosters) (n : Nat) (rounds : Nat → LotteryAccount)
    (winners : Nat → TicketAccount) : List Snapshot :=
  (scanIds n n).filterMap (fun id =>
    (rounds id).winnerId.map (fun w => snapshotOf H rosters id (rounds id) w (winners id)))

/-! ## Concrete programs used to instantiate the theorems -/

/-- Helpers with distinct addresses for the rounds and tickets of the examples;
the prize is `ticketPrice * lastTicketId`. -/
def exampleHelpers : Helpers :=
  { getMasterAddress := 1,
    getLotteryAddress := fun id => 100 + id,
    getTicketAddress := fun lotteryAddress ticketId => 1000 * lotteryAddress + ticketId,
    getTotalPrize := fun lottery => lottery.ticketPrice * lottery.lastTicketId }

/-- Four tickets: two in round 2 and two in round 4, bought alternately. -/
def exampleTickets : List TicketItem :=
  [ { publicKey := 102001, account := { id := 1, lotteryId := 2, authority := 50 } },
    { publicKey := 104001, account := { id := 1, lotteryId := 4, authority := 51 } },
    { publicKey := 102002, account := { id := 2, lotteryId := 2, authority := 52 } },
    { publicKey := 104002, account := { id := 2, lotteryId := 4, authority := 50 } } ]

/-- Round records for rounds 1..5: only rounds 2 and 4 have a winner. -/
def exampleRounds (id : Nat) : LotteryAccount :=
  { id := id, authority := 9, ticketPrice := 1,
    lastTicketId := if id = 2 ∨ id = 4 then 2 else 0,
    winnerId := if id = 2 then some 1 else if id = 4 then some 2 else none,
    claimed := false }

/-- The winning tickets of rounds 2 and 4. -/
def exampleWinners (id : Nat) : TicketAccount :=
  if id = 2 then { id := 1, lotteryId := 2, authority := 50 }
  else { id := 2, lotteryId := 4, authority := 50 }

/-- A program with five rounds, the tickets of `exampleTickets`, and every
fetch of an existing account succeeding. -/
def exampleChain : Chain :=
  { master := fun _ => .ok { lastId := 5 },
    lottery := fun address =>
      if 101 ≤ address ∧ address ≤ 105 then .ok (exampleRounds (address - 100))
      else .error "Account does not exist",
    ticket := fun address =>
      if address = 102001 then .ok (exampleWinners 2)
      else if address = 104002 then .ok (exampleWinners 4)
      else .error "Account does not exist",
    ticketAll := .ok exampleTickets,
    ticketAllBy := fun lotteryId owner =>
      .ok (exampleTickets.filter
        (fun t => t.account.lotteryId = lotteryId ∧ t.account.authority = owner)) }

/-- A store whose `lotteryId` is `n`, otherwise initial. -/
def storeAtRound (n : Nat) : Store :=
  { Store.initial with lotteryId := some n }

/-- A program with three rounds, each with winner ticket 1, in which the
account of round 2 cannot be fetched. -/
def brokenChain : Chain :=
  { master := fun _ => .ok { lastId := 3 },
    lottery := fun address =>
      if address = 101 ∨ address = 103 then
        .ok { id := address - 100, authority := 9, ticketPrice := 1, lastTicketId := 1,
              winnerId := some 1, claimed := false }
      else .error "Account does not exist",
    ticket := fun address =>
      if address = 101001 ∨ address = 103001 then
        .ok { id := 1, lotteryId := address / 1000 - 100, authority := 50 }
      else .error "Account does not exist",
    ticketAll := .ok [],
    ticketAllBy := fun _ _ => .ok [] }

/-- A store at round 2 that already shows a snapshot of round 2. -/
def storeWithHistory : Store :=
  { Store.initial with
    lotteryId := some 2,
    lotteryHistory :=
      [ { lotteryId := 2, winnerId := 1, winnerAddress := 50, prize := 1,
          participants := none } ] }

/-- A program on which no master account exists yet. -/
def uninitializedChain : Chain :=
  { master := fun _ => .error "Account does not exist",
    lottery := fun _ => .error "Account does not exist",
    ticket := fun _ => .error "Account does not exist",
    ticketAll := .ok [],
    ticketAllBy := fun _ _ => .ok [] }

/-- The record of round 1 in the synchronization examples: decided and claimed. -/
def roundOne : LotteryAccount :=
  { id := 1, authority := 9, ticketPrice := 1, lastTicketId := 8, winnerId := some 7,
    claimed := true }

/-- The record of round 2 in the synchronization examples: winner ticket 7, not
claimed. -/
def roundTwo : LotteryAccount :=
  { id := 2, authority := 9, ticketPrice := 1, lastTicketId := 9, winnerId := some 7,
    claimed := false }

/-- The tickets of the synchronization examples: user 50 holds tickets 3 and 7
of round 2, user 60 holds ticket 7 of round 1. -/
def claimTickets : List TicketItem :=
  [ { publicKey := 102003, account := { id := 3, lotteryId := 2, authority := 50 } },
    { publicKey := 102007, account := { id := 7, lotteryId := 2, authority := 50 } },
    { publicKey := 101007, account := { id := 7, lotteryId := 1, authority := 60 } } ]

/-- A program whose latest round is round 2. -/
def claimChain : Chain :=
  { master := fun _ => .ok { lastId := 2 },
    lottery := fun address =>
      if address = 101 then .ok roundOne
      else if address = 102 then .ok roundTwo
      else .error "Account does not exist",
    ticket := fun _ => .error "Account does not exist",
    ticketAll := .ok claimTickets,
    ticketAllBy := fun lotteryId owner =>
      .ok (claimTickets.filter
        (fun t => t.account.lotteryId = lotteryId ∧ t.account.authority = owner)) }

/-- The same program at the earlier time when round 1 was the latest round. -/
def claimChainBefore : Chain :=
  { claimChain with master := fun _ => .ok { lastId := 1 } }

/-- The same program as `claimChain`, but the fetch of the account of round 2
fails. -/
def claimChainNoRound : Chain :=
  { claimChain with
    lottery := fun address =>
      if address = 101 then .ok roundOne else .error "Network request failed" }

/-- The same program as `claimChain`, but the ticket queries fail. -/
def claimChainNoTickets : Chain :=
  { claimChain with ticketAllBy := fun _ _ => .error "Network request failed" }

/-- Every external step of every action succeeds. -/
def submitOk : Action → Submission :=
  fun _ => { lotteryAddress := .ok (), ticketAddress := .ok (), send := .ok () }

/-- The transaction of every action is rejected. -/
def submitRejected : Action → Submission :=
  fun _ => { lotteryAddress := .ok (), ticketAddress := .ok (),
             send := .error "Transaction simulation failed" }

/-- A store synchronized on round 1, with eligibility `null`. -/
def syncedOnRoundOne : Store :=
  { Store.initial with
    masterAddress := some 1, intialized := true, lotteryId := some 1,
    lotteryAddress := some 101, lottery := some roundOne, userWinningId := .null }

/-- A race: cycle A starts and reads the master while round 1 is the latest;
cycle B then starts and runs to its end on the program whose latest round is
round 2; the last event, taken off in `raceUntilB`, answers the lottery fetch
of A. -/
def raceEvents : List Event :=
  [ .start .A none, .resolve .A claimChainBefore,
    .start .B none, .resolve .B claimChain, .resolve .B claimChain,
    .resolve .A claimChain ]

/-- The events of `raceEvents` up to the end of cycle B. -/
def raceUntilB : List Event := raceEvents.take 5

/-! ## Lemmas on the roster map -/

theorem Rosters.get_set (m : Rosters) (k k' : Nat) (r : Roster) :
    (m.set k r).get k' = if k = k' then some r else m.get k' := by
  induction m with
  | nil => simp [Rosters.set, Rosters.get]
  | cons hd tl ih =>
    obtain ⟨k0, r0⟩ := hd
    by_cases h : k0 = k
    · subst h
      by_cases h2 : k0 = k' <;> simp [Rosters.set, Rosters.get, h2]
    · by_cases h2 : k0 = k'
      · subst h2
        have : ¬ k = k0 := fun e => h e.symm
        simp [Rosters.set, Rosters.get, h, this]
      · simp [Rosters.set, Rosters.get, h, h2, ih]

theorem Rosters.totalCount_set_none (m : Rosters) (k : Nat) (r : Roster)
    (h : m.get k = none) : (m.set k r).totalCount = m.totalCount + r.count := by
  induction m with
  | nil => simp [Rosters.set, Rosters.totalCount]
  | cons hd tl ih =>
    obtain ⟨k0, r0⟩ := hd
    by_cases hk : k0 = k
    · simp [Rosters.get, hk] at h
    · simp only [Rosters.get, hk, if_false] at h
      have := ih h
      simp only [Rosters.totalCount] at this ⊢
      simp [Rosters.set, hk, this]
      omega

theorem Rosters.totalCount_set_some (m : Rosters) (k : Nat) (r0 r : Roster)
    (h : m.get k = some r0) : (m.set k r).totalCount + r0.count = m.totalCount + r.count := by
  induction m with
  | nil => simp [Rosters.get] at h
  | cons hd tl ih =>
    obtain ⟨k1, r1⟩ := hd
    by_cases hk : k1 = k
    · simp only [Rosters.get, hk, if_true, Option.some.injEq] at h
      subst h
      simp [Rosters.set, hk, Rosters.totalCount]
      omega
    · simp only [Rosters.get, hk, if_false] at h
      have := ih h
      simp only [Rosters.totalCount] at this ⊢
      simp [Rosters.set, hk]
      omega

theorem Rosters.entries_set_none (m : Rosters) (k : Nat) (r : Roster)
    (h : m.get k = none) :
    (m.set k r).entries = m.entries ++ r.participants.map (fun p => (k, p)) := by
  induction m with
  | nil => simp [Rosters.set, Rosters.entries]
  | cons hd tl ih =>
    obtain ⟨k0, r0⟩ := hd
    by_cases hk : k0 = k
    · simp [Rosters.get, hk] at h
    · simp only [Rosters.get, hk, if_false] at h
      have := ih h
      simp only [Rosters.entries] at this ⊢
      simp [Rosters.set, hk, this]

theorem Rosters.entries_set_some (m : Rosters) (k : Nat) (r0 : Roster) (c : Nat) (p : Participant)
    (h : m.get k = some r0) :
    ((m.set k { r0 with count := c, participants := r0.participants ++ [p] }).entries).Perm
      (m.entries ++ [(k, p)]) := by
  induction m with
  | nil => simp [Rosters.get] at h
  | cons hd tl ih =>
    obtain ⟨k1, r1⟩ := hd
    by_cases hk : k1 = k
    · simp only [Rosters.get, hk, if_true, Option.some.injEq] at h
      subst h
      subst hk
      simp only [Rosters.set, if_true, Rosters.entries, List.flatMap_cons, List.map_append,
        List.map_cons, List.map_nil, List.append_assoc]
      apply List.Perm.append_left
      exact List.perm_append_comm
    · simp only [Rosters.get, hk, if_false] at h
      have := ih h
      simp only [Rosters.entries] at this ⊢
      simp only [Rosters.set, hk, if_false, List.flatMap_cons, List.append_assoc]
      exact List.Perm.append_left _ this

theorem Rosters.keys_set (m : Rosters) (k : Nat) (r : Roster) :
    (m.set k r).map Prod.fst = if m.get k = none then m.map Prod.fst ++ [k] else m.map Prod.fst := by
  induction m with
  | nil => simp [Rosters.set, Rosters.get]
  | cons hd tl ih =>
    obtain ⟨k0, r0⟩ := hd
    by_cases hk : k0 = k
    · simp [Rosters.set, Rosters.get, hk]
    · simp only [Rosters.set, Rosters.get, hk, if_false, List.map_cons, ih]
      split <;> simp

theorem Rosters.get_eq_none_iff (m : Rosters) (k : Nat) :
    m.get k = none ↔ k ∉ m.map Prod.fst := by
  induction m with
  | nil => simp [Rosters.get]
  | cons hd tl ih =>
    obtain ⟨k0, r0⟩ := hd
    by_cases hk : k0 = k
    · simp [Rosters.get, hk]
    · have hk2 : ¬ k = k0 := fun e => hk e.symm
      simp only [Rosters.get, hk, if_false, ih]
      simp [hk2]

theorem Rosters.keys_nodup_set (m : Rosters) (k : Nat) (r : Roster)
    (h : (m.map Prod.fst).Nodup) : ((m.set k r).map Prod.fst).Nodup := by
  rw [Rosters.keys_set]
  split
  · rename_i hn
    rw [Rosters.get_eq_none_iff] at hn
    rw [List.nodup_append]
    refine ⟨h, List.nodup_singleton k, ?_⟩
    intro a ha hb
    simp at hb
    subst hb
    exact hn ha
  · exact h

theorem groupTickets_snoc (ts : List TicketItem) (t : TicketItem) :
    groupTickets (ts ++ [t]) = reducer (groupTickets ts) t := by
  simp [groupTickets, List.foldl_append]

theorem ticketsOfRound_snoc (ts : List TicketItem) (t : TicketItem) (r : Nat) :
    ticketsOfRound (ts ++ [t]) r =
      if t.account.lotteryId = r then ticketsOfRound ts r ++ [participantOf t]
      else ticketsOfRound ts r := by
  by_cases h : t.account.lotteryId = r <;> simp [ticketsOfRound, List.filter_append, h]

/-- The roster stored under each key after the reduce. -/
theorem groupTickets_get (ts : List TicketItem) (r : Nat) :
    (groupTickets ts).get r =
      if ticketsOfRound ts r = [] then none
      else some { lotteryId := r, count := (ticketsOfRound ts r).length,
                  participants := ticketsOfRound ts r } := by
  induction ts using List.reverseRecOn generalizing r with
  | nil => simp [groupTickets, Rosters.get, ticketsOfRound]
  | append_singleton ts t ih =>
    rw [groupTickets_snoc, ticketsOfRound_snoc]
    unfold reducer
    have ihk := ih t.account.lotteryId
    by_cases hr : t.account.lotteryId = r
    · subst hr
      by_cases he : ticketsOfRound ts t.account.lotteryId = []
      · rw [he] at ihk
        simp only [if_true] at ihk
        rw [ihk]
        simp [Rosters.get_set, he]
      · simp only [he, if_false] at ihk
        rw [ihk]
        simp [Rosters.get_set]
    · cases hg : (groupTickets ts).get t.account.lotteryId <;>
        simp [Rosters.get_set, hr, ih r]

theorem groupTickets_totalCount (ts : List TicketItem) :
    (groupTickets ts).totalCount = ts.length := by
  induction ts using List.reverseRecOn with
  | nil => simp [groupTickets, Rosters.totalCount]
  | append_singleton ts t ih =>
    rw [groupTickets_snoc]
    unfold reducer
    cases hg : (groupTickets ts).get t.account.lotteryId with
    | none =>
      simp only
      rw [Rosters.totalCount_set_none _ _ _ hg, ih]
      simp
    | some r0 =>
      simp only
      have := Rosters.totalCount_set_some _ _ r0
        { r0 with count := r0.count + 1, participants := r0.participants ++ [participantOf t] } hg
      simp only at this
      rw [ih] at this
      simp
      omega

theorem groupTickets_keys_nodup (ts : List TicketItem) :
    ((groupTickets ts).map Prod.fst).Nodup := by
  induction ts using List.reverseRecOn with
  | nil => simp [groupTickets]
  | append_singleton ts t ih =>
    rw [groupTickets_snoc]
    unfold reducer
    cases hg : (groupTickets ts).get t.account.lotteryId <;>
      exact Rosters.keys_nodup_set _ _ _ ih

theorem groupTickets_entries (ts : List TicketItem) :
    ((groupTickets ts).entries).Perm
      (ts.map (fun t => (t.account.lotteryId, participantOf t))) := by
  induction ts using List.reverseRecOn with
  | nil => simp [groupTickets, Rosters.entries]
  | append_singleton ts t ih =>
    rw [groupTickets_snoc, List.map_append]
    unfold reducer
    cases hg : (groupTickets ts).get t.account.lotteryId with
    | none =>
      simp only
      rw [Rosters.entries_set_none _ _ _ hg]
      exact List.Perm.append_right _ ih
    | some r0 =>
      simp only
      exact (Rosters.entries_set_some _ _ r0 (r0.count + 1) (participantOf t) hg).trans
        (List.Perm.append_right _ ih)

/-! ## Lemmas on the history loop -/

theorem historyLoop_ok (H : Helpers) (chain : Chain) (n : Nat) (rosters : Rosters) :
    ∀ (is : List Nat) (run : HistoryRun),
      (∀ i ∈ is, i < n ∧ roundFailure H chain (n - i) = none) →
      (historyLoop H chain n (some rosters) is run).history =
          run.history ++ is.flatMap (fun i => emitted H chain rosters (n - i)) ∧
        (historyLoop H chain n (some rosters) is run).thrown = run.thrown ∧
        (historyLoop H chain n (some rosters) is run).lotteryHistory =
          if is.flatMap (fun i => emitted H chain rosters (n - i)) = [] then run.lotteryHistory
          else run.history ++ is.flatMap (fun i => emitted H chain rosters (n - i)) := by
  intro is
  induction is with
  | nil => intro run _; simp [historyLoop]
  | cons i rest ih =>
    intro run h
    have hi := h i (List.mem_cons_self _ _)
    have hrest : ∀ j ∈ rest, j < n ∧ roundFailure H chain (n - j) = none :=
      fun j hj => h j (List.mem_cons_of_mem _ hj)
    have hne : n - i ≠ 0 := by omega
    have hf := hi.2
    unfold historyLoop
    simp only [hne, if_false]
    unfold roundFailure at hf
    simp only [List.flatMap_cons]
    cases hl : chain.lottery (H.getLotteryAddress (n - i)) with
    | error e => simp [hl] at hf
    | ok lottery =>
      simp only [hl] at hf
      cases hw : lottery.winnerId with
      | none =>
        have he : emitted H chain rosters (n - i) = [] := by simp [emitted, hl, hw]
        simp only [he, List.nil_append, hw]
        exact ih _ hrest
      | some w =>
        simp only [hw] at hf
        by_cases hw0 : w = 0
        · have he : emitted H chain rosters (n - i) = [] := by simp [emitted, hl, hw, hw0]
          simp only [hw, hw0, if_true, he, List.nil_append]
          exact ih _ hrest
        · simp only [hw0, if_false] at hf
          simp only [hw, hw0, if_false]
          cases ht : chain.ticket (H.getTicketAddress (H.getLotteryAddress (n - i)) w) with
          | error e => simp [ht] at hf
          | ok tw =>
            have he : emitted H chain rosters (n - i) =
                [snapshotOf H rosters (n - i) lottery w tw] := by
              simp [emitted, hl, hw, hw0, ht]
            simp only [he, snapshotOf]
            refine ⟨?_, ?_, ?_⟩
            · rw [(ih _ hrest).1]; simp
            · rw [(ih _ hrest).2.1]
            · rw [(ih _ hrest).2.2]
              split
              · rename_i hnil
                simp [hnil]
              · simp

theorem historyLoop_ok_head (H : Helpers) (chain : Chain) (n : Nat) (rosters : Rosters)
    (i : Nat) (run : HistoryRun) (hi : i < n) (hf : roundFailure H chain (n - i) = none) :
    ∃ next : HistoryRun, ∀ tail : List Nat,
      historyLoop H chain n (some rosters) (i :: tail) run =
        historyLoop H chain n (some rosters) tail next := by
  have hne : n - i ≠ 0 := by omega
  unfold roundFailure at hf
  cases hl : chain.lottery (H.getLotteryAddress (n - i)) with
  | error e => simp [hl] at hf
  | ok lottery =>
    simp only [hl] at hf
    cases hw : lottery.winnerId with
    | none =>
      refine ⟨(HistoryRun.mk (run.calls ++ [Call.lotteryFetch (H.getLotteryAddress (n - i))]) run.history
        run.lotteryHistory run.thrown), fun tail => ?_⟩
      rw [historyLoop]
      simp only [hne, if_false, hl, hw]
    | some w =>
      simp only [hw] at hf
      by_cases hw0 : w = 0
      · refine ⟨(HistoryRun.mk (run.calls ++ [Call.lotteryFetch (H.getLotteryAddress (n - i))]) run.history
        run.lotteryHistory run.thrown), fun tail => ?_⟩
        rw [historyLoop]
        simp only [hne, if_false, hl, hw, hw0, if_true]
      · simp only [hw0, if_false] at hf
        cases ht : chain.ticket (H.getTicketAddress (H.getLotteryAddress (n - i)) w) with
        | error e => simp [ht] at hf
        | ok tw =>
          refine ⟨HistoryRun.mk
            (run.calls ++ [Call.lotteryFetch (H.getLotteryAddress (n - i))] ++
              [Call.ticketFetch (H.getTicketAddress (H.getLotteryAddress (n - i)) w)])
            (run.history ++ [snapshotOf H rosters (n - i) lottery w tw])
            (run.history ++ [snapshotOf H rosters (n - i) lottery w tw]) run.thrown,
            fun tail => ?_⟩
          rw [historyLoop]
          simp only [hne, if_false, hl, hw, hw0, ht, snapshotOf]

theorem historyLoop_append_ok (H : Helpers) (chain : Chain) (n : Nat) (rosters : Rosters)
    (ys : List Nat) :
    ∀ (xs : List Nat) (run : HistoryRun),
      (∀ i ∈ xs, i < n ∧ roundFailure H chain (n - i) = none) →
      historyLoop H chain n (some rosters) (xs ++ ys) run =
        historyLoop H chain n (some rosters) ys (historyLoop H chain n (some rosters) xs run) := by
  intro xs
  induction xs with
  | nil => intro run _; simp [historyLoop]
  | cons i rest ih =>
    intro run h
    have hi := h i (List.mem_cons_self _ _)
    have hrest : ∀ j ∈ rest, j < n ∧ roundFailure H chain (n - j) = none :=
      fun j hj => h j (List.mem_cons_of_mem _ hj)
    obtain ⟨next, hnext⟩ := historyLoop_ok_head H chain n rosters i run hi.1 hi.2
    rw [List.cons_append, hnext (rest ++ ys), hnext rest]
    exact ih next hrest

theorem historyLoop_fail_head (H : Helpers) (chain : Chain) (n : Nat)
    (participants : Option Rosters) (i : Nat) (rest : List Nat) (run : HistoryRun) (e : String)
    (hi : i < n) (hf : roundFailure H chain (n - i) = some e) :
    (historyLoop H chain n participants (i :: rest) run).history = run.history ∧
      (historyLoop H chain n participants (i :: rest) run).lotteryHistory = run.lotteryHistory ∧
      (historyLoop H chain n participants (i :: rest) run).thrown = some e := by
  have hne : n - i ≠ 0 := by omega
  unfold roundFailure at hf
  unfold historyLoop
  simp only [hne, if_false]
  cases hl : chain.lottery (H.getLotteryAddress (n - i)) with
  | error e0 =>
    simp only [hl, Option.some.injEq] at hf
    simp [hf]
  | ok lottery =>
    simp only [hl] at hf
    cases hw : lottery.winnerId with
    | none => simp [hw] at hf
    | some w =>
      simp only [hw] at hf
      by_cases hw0 : w = 0
      · simp [hw0] at hf
      · simp only [hw0, if_false] at hf
        simp only [hw, hw0, if_false]
        cases ht : chain.ticket (H.getTicketAddress (H.getLotteryAddress (n - i)) w) with
        | error e0 =>
          simp only [ht, Option.some.injEq] at hf
          simp [hf]
        | ok tw => simp [ht] at hf

theorem range_split (n k : Nat) (h1 : 1 ≤ k) (h2 : k ≤ n) :
    ∃ rest, List.range n = List.range (n - k) ++ (n - k) :: rest := by
  obtain ⟨k', rfl⟩ : ∃ k', k = k' + 1 := ⟨k - 1, by omega⟩
  refine ⟨(List.map Nat.succ (List.range k')).map (fun x => (n - (k' + 1)) + x), ?_⟩
  have hn : n = (n - (k' + 1)) + (k' + 1) := by omega
  conv_lhs => rw [hn]
  rw [List.range_add, List.range_succ_eq_map]
  simp

theorem flatMap_scanIds (n m : Nat) (f : Nat → List Snapshot) :
    (List.range m).flatMap (fun i => f (n - i)) = (scanIds n m).flatMap f := by
  simp [scanIds, List.flatMap_map]

theorem mem_scanIds (n m id : Nat) (hm : m ≤ n) :
    id ∈ scanIds n m ↔ n - m < id ∧ id ≤ n := by
  simp only [scanIds, List.mem_map, List.mem_range]
  constructor
  · rintro ⟨i, hi, rfl⟩
    omega
  · intro h
    exact ⟨n - id, by omega, by omega⟩

theorem scanIds_pairwise (n m : Nat) (hm : m ≤ n) : (scanIds n m).Pairwise (· > ·) := by
  unfold scanIds
  rw [List.pairwise_map]
  refine List.Pairwise.imp_of_mem ?_ (List.pairwise_lt_range m)
  intro a b ha hb hab
  rw [List.mem_range] at ha hb
  show n - a > n - b
  omega

theorem flatMap_emitted_eq (H : Helpers) (chain : Chain) (rosters : Rosters)
    (rounds : Nat → LotteryAccount) (winners : Nat → TicketAccount) (ids : List Nat)
    (hround : ∀ id ∈ ids, chain.lottery (H.getLotteryAddress id) = .ok (rounds id))
    (hwin : ∀ id ∈ ids, (rounds id).winnerId ≠ some 0)
    (hticket : ∀ id ∈ ids, ∀ w, (rounds id).winnerId = some w →
      chain.ticket (H.getTicketAddress (H.getLotteryAddress id) w) = .ok (winners id)) :
    ids.flatMap (emitted H chain rosters) =
      ids.filterMap (fun id =>
        (rounds id).winnerId.map (fun w => snapshotOf H rosters id (rounds id) w (winners id))) := by
  induction ids with
  | nil => simp
  | cons id rest ih =>
    have hr := hround id (List.mem_cons_self _ _)
    have hw := hwin id (List.mem_cons_self _ _)
    have ht := hticket id (List.mem_cons_self _ _)
    have ih2 := ih (fun j hj => hround j (List.mem_cons_of_mem _ hj))
      (fun j hj => hwin j (List.mem_cons_of_mem _ hj))
      (fun j hj => hticket j (List.mem_cons_of_mem _ hj))
    rw [List.flatMap_cons, ih2]
    cases hwid : (rounds id).winnerId with
    | none => simp [emitted, hr, hwid, List.filterMap_cons]
    | some w =>
      have hw0 : w ≠ 0 := by
        intro h0
        apply hw
        rw [hwid, h0]
      simp [emitted, hr, hwid, hw0, ht w hwid, List.filterMap_cons]

theorem roundFailure_none_of_ok (H : Helpers) (chain : Chain) (id : Nat)
    (lottery : LotteryAccount) (winner : TicketAccount)
    (hround : chain.lottery (H.getLotteryAddress id) = .ok lottery)
    (hticket : ∀ w, lottery.winnerId = some w →
      chain.ticket (H.getTicketAddress (H.getLotteryAddress id) w) = .ok winner) :
    roundFailure H chain id = none := by
  unfold roundFailure
  rw [hround]
  cases hwid : lottery.winnerId with
  | none => simp [hwid]
  | some w =>
    by_cases hw0 : w = 0
    · simp [hwid, hw0]
    · simp [hwid, hw0, hticket w hwid]

theorem expectedHistory_ids (H : Helpers) (rosters : Rosters) (n : Nat)
    (rounds : Nat → LotteryAccount) (winners : Nat → TicketAccount) :
    (expectedHistory H rosters n rounds winners).map (fun snap => snap.lotteryId) =
      (scanIds n n).filter (fun id => (rounds id).winnerId.isSome) := by
  unfold expectedHistory
  generalize scanIds n n = ids
  induction ids with
  | nil => simp
  | cons id rest ih =>
    cases hwid : (rounds id).winnerId with
    | none => simp [List.filterMap_cons, List.filter_cons, hwid, ih]
    | some w =>
      rw [List.filterMap_cons, List.filter_cons]
      simp only [hwid, Option.map_some', Option.isSome_some, if_true, List.map_cons, ih]
      rfl

/-- The fields of a run of `getHistory` in which no fetch fails. -/
theorem getHistory_ok (H : Helpers) (chain : Chain) (s : Store) (n : Nat)
    (response : List TicketItem) (hn : 1 ≤ n) (hid : s.lotteryId = some n)
    (hall : chain.ticketAll = .ok response)
    (hok : ∀ id, 1 ≤ id → id ≤ n → roundFailure H chain id = none) :
    (getHistory H chain s).history =
        (scanIds n n).flatMap (emitted H chain (groupTickets response)) ∧
      (getHistory H chain s).thrown = none ∧
      (getHistory H chain s).lotteryHistory =
        if (scanIds n n).flatMap (emitted H chain (groupTickets response)) = []
        then s.lotteryHistory
        else (scanIds n n).flatMap (emitted H chain (groupTickets response)) := by
  have hn0 : n ≠ 0 := by omega
  have hp : getParticipants chain = some (groupTickets response) := by
    simp [getParticipants, hall]
  have hall : ∀ i ∈ List.range n, i < n ∧ roundFailure H chain (n - i) = none := by
    intro i hi
    rw [List.mem_range] at hi
    exact ⟨hi, hok (n - i) (by omega) (by omega)⟩
  have key := historyLoop_ok H chain n (groupTickets response) (List.range n)
    { calls := [Call.ticketAll], history := [], lotteryHistory := s.lotteryHistory,
      thrown := none } hall
  simp only [getHistory, hid, hn0, if_false, hp]
  rw [flatMap_scanIds] at key
  simpa using key

/-! ## Claims on `getParticipants` -/

/-- C1: for every list of ticket records returned by the ledger, the grouping
computed by `getParticipants` has counts summing to the number of tickets, has
one roster per key, and holds every input ticket exactly once, in the roster
keyed by its own `lotteryId`: the entries of all rosters, tagged with their
key, are a rearrangement of the input tickets tagged with their `lotteryId`. -/
theorem C1_getParticipants_partition (chain : Chain) (response : List TicketItem)
    (h : chain.ticketAll = .ok response) :
    ∃ rosters, getParticipants chain = some rosters ∧
      rosters.totalCount = response.length ∧
      (rosters.map Prod.fst).Nodup ∧
      rosters.entries.Perm (response.map (fun t => (t.account.lotteryId, participantOf t))) ∧
      ∀ t ∈ response, ∃ roster, rosters.get t.account.lotteryId = some roster ∧
        roster.lotteryId = t.account.lotteryId ∧ participantOf t ∈ roster.participants := by
  refine ⟨groupTickets response, by simp [getParticipants, h], groupTickets_totalCount _,
    groupTickets_keys_nodup _, groupTickets_entries _, ?_⟩
  intro t ht
  have hmem : participantOf t ∈ ticketsOfRound response t.account.lotteryId := by
    simp only [ticketsOfRound, List.mem_map, List.mem_filter]
    exact ⟨t, ⟨ht, by simp⟩, rfl⟩
  have hne : ticketsOfRound response t.account.lotteryId ≠ [] :=
    List.ne_nil_of_mem hmem
  refine ⟨{ lotteryId := t.account.lotteryId,
             count := (ticketsOfRound response t.account.lotteryId).length,
             participants := ticketsOfRound response t.account.lotteryId }, ?_, rfl, hmem⟩
  rw [groupTickets_get]
  simp [hne]

/-- C1 at the four example tickets. -/
theorem C1_getParticipants_partition_witness :
    ∃ rosters, getParticipants exampleChain = some rosters ∧
      rosters.totalCount = exampleTickets.length ∧
      (rosters.map Prod.fst).Nodup ∧
      rosters.entries.Perm
        (exampleTickets.map (fun t => (t.account.lotteryId, participantOf t))) ∧
      ∀ t ∈ exampleTickets, ∃ roster, rosters.get t.account.lotteryId = some roster ∧
        roster.lotteryId = t.account.lotteryId ∧ participantOf t ∈ roster.participants :=
  C1_getParticipants_partition exampleChain exampleTickets rfl

/-- C2: for every list of ticket records and every round id `r`, the map built
by `getParticipants` has under `r` the roster whose participants are the input
tickets of round `r` in input order and whose `count` is the length of that
list (and no roster when the round has no ticket); for the empty input the map
is empty. -/
theorem C2_roster_of_round (chain : Chain) (response : List TicketItem) (r : Nat)
    (h : chain.ticketAll = .ok response) :
    ∃ rosters, getParticipants chain = some rosters ∧
      (response = [] → rosters = []) ∧
      (ticketsOfRound response r = [] → rosters.get r = none) ∧
      (ticketsOfRound response r ≠ [] → ∃ roster, rosters.get r = some roster) ∧
      ∀ roster, rosters.get r = some roster →
        roster.lotteryId = r ∧
        roster.participants =
          (response.filter (fun t => t.account.lotteryId = r)).map participantOf ∧
        roster.count = roster.participants.length := by
  refine ⟨groupTickets response, by simp [getParticipants, h], ?_, ?_, ?_, ?_⟩
  · intro he
    subst he
    rfl
  · intro he
    rw [groupTickets_get]
    simp [he]
  · intro hne
    rw [groupTickets_get]
    simp [hne]
  · intro roster hr
    rw [groupTickets_get] at hr
    by_cases he : ticketsOfRound response r = []
    · simp [he] at hr
    · simp only [he, if_false, Option.some.injEq] at hr
      subst hr
      exact ⟨rfl, rfl, rfl⟩

/-- C2 at the four example tickets and round 4. -/
theorem C2_roster_of_round_witness :
    ∃ rosters, getParticipants exampleChain = some rosters ∧
      (exampleTickets = [] → rosters = []) ∧
      (ticketsOfRound exampleTickets 4 = [] → rosters.get 4 = none) ∧
      (ticketsOfRound exampleTickets 4 ≠ [] → ∃ roster, rosters.get 4 = some roster) ∧
      ∀ roster, rosters.get 4 = some roster →
        roster.lotteryId = 4 ∧
        roster.participants =
          (exampleTickets.filter (fun t => t.account.lotteryId = 4)).map participantOf ∧
        roster.count = roster.participants.length :=
  C2_roster_of_round exampleChain exampleTickets 4 rfl

/-! ## Claims on `getHistory` -/

theorem mem_emitted_lotteryId (H : Helpers) (chain : Chain) (rosters : Rosters) (id : Nat)
    (snap : Snapshot) (h : snap ∈ emitted H chain rosters id) : snap.lotteryId = id := by
  unfold emitted at h
  split at h
  · simp at h
  · split at h
    · simp at h
    · split at h
      · simp at h
      · split at h
        · simp at h
        · simp only [List.mem_singleton] at h
          subst h
          rfl

/-- C3: for a latest round id `n >= 1` and round records for ids `1..n` all of
whose fetches succeed (winner ids, when set, being at least 1 as the data model
requires), `getHistory` does not throw and builds exactly one snapshot for each
round of `1..n` whose `winnerId` is set and none for the others, in strictly
decreasing order of round id; rounds without a winner are skipped without
stopping the scan. -/
theorem C3_getHistory_winners_descending (H : Helpers) (chain : Chain) (s : Store) (n : Nat)
    (rounds : Nat → LotteryAccount) (winners : Nat → TicketAccount)
    (response : List TicketItem)
    (hn : 1 ≤ n) (hid : s.lotteryId = some n) (hall : chain.ticketAll = .ok response)
    (hround : ∀ id, 1 ≤ id → id ≤ n →
      chain.lottery (H.getLotteryAddress id) = .ok (rounds id))
    (hwin : ∀ id, 1 ≤ id → id ≤ n → (rounds id).winnerId ≠ some 0)
    (hticket : ∀ id w, 1 ≤ id → id ≤ n → (rounds id).winnerId = some w →
      chain.ticket (H.getTicketAddress (H.getLotteryAddress id) w) = .ok (winners id)) :
    (getHistory H chain s).thrown = none ∧
      (getHistory H chain s).history =
        expectedHistory H (groupTickets response) n rounds winners ∧
      ((getHistory H chain s).history.map (fun snap => snap.lotteryId)).Pairwise (· > ·) ∧
      (∀ id, id ∈ (getHistory H chain s).history.map (fun snap => snap.lotteryId) ↔
        (1 ≤ id ∧ id ≤ n ∧ (rounds id).winnerId.isSome)) ∧
      (getHistory H chain s).lotteryHistory =
        if (getHistory H chain s).history = [] then s.lotteryHistory
        else (getHistory H chain s).history := by
  have hok : ∀ id, 1 ≤ id → id ≤ n → roundFailure H chain id = none := fun id h1 h2 =>
    roundFailure_none_of_ok H chain id (rounds id) (winners id) (hround id h1 h2)
      (fun w hw => hticket id w h1 h2 hw)
  obtain ⟨hh, ht, hl⟩ := getHistory_ok H chain s n response hn hid hall hok
  have hmem : ∀ id ∈ scanIds n n, 1 ≤ id ∧ id ≤ n := by
    intro id hmem
    rw [mem_scanIds n n id (le_refl n)] at hmem
    omega
  have heq := flatMap_emitted_eq H chain (groupTickets response) rounds winners (scanIds n n)
    (fun id hm => hround id (hmem id hm).1 (hmem id hm).2)
    (fun id hm => hwin id (hmem id hm).1 (hmem id hm).2)
    (fun id hm w hw => hticket id w (hmem id hm).1 (hmem id hm).2 hw)
  have hexp : (getHistory H chain s).history =
      expectedHistory H (groupTickets response) n rounds winners := by
    rw [hh, heq]
    rfl
  refine ⟨ht, hexp, ?_, ?_, ?_⟩
  · rw [hexp, expectedHistory_ids]
    exact (scanIds_pairwise n n (le_refl n)).sublist (List.filter_sublist _)
  · intro id
    rw [hexp, expectedHistory_ids, List.mem_filter, mem_scanIds n n id (le_refl n)]
    constructor
    · rintro ⟨⟨h1, h2⟩, h3⟩
      exact ⟨by omega, h2, h3⟩
    · rintro ⟨h1, h2, h3⟩
      exact ⟨⟨by omega, h2⟩, h3⟩
  · rw [hl, hh]

/-- C3 at rounds 1..5 with winners only in rounds 2 and 4: the history holds
the snapshots of round 4 then round 2. -/
theorem C3_getHistory_winners_descending_witness :
    ((getHistory exampleHelpers exampleChain (storeAtRound 5)).thrown = none ∧
      (getHistory exampleHelpers exampleChain (storeAtRound 5)).history =
        expectedHistory exampleHelpers (groupTickets exampleTickets) 5 exampleRounds
          exampleWinners ∧
      ((getHistory exampleHelpers exampleChain (storeAtRound 5)).history.map
        (fun snap => snap.lotteryId)).Pairwise (· > ·) ∧
      (∀ id, id ∈ (getHistory exampleHelpers exampleChain (storeAtRound 5)).history.map
          (fun snap => snap.lotteryId) ↔
        (1 ≤ id ∧ id ≤ 5 ∧ (exampleRounds id).winnerId.isSome)) ∧
      (getHistory exampleHelpers exampleChain (storeAtRound 5)).lotteryHistory =
        if (getHistory exampleHelpers exampleChain (storeAtRound 5)).history = []
        then (storeAtRound 5).lotteryHistory
        else (getHistory exampleHelpers exampleChain (storeAtRound 5)).history) ∧
    (getHistory exampleHelpers exampleChain (storeAtRound 5)).history.map
      (fun snap => (snap.lotteryId, snap.winnerId)) = [(4, 2), (2, 1)] :=
  ⟨C3_getHistory_winners_descending exampleHelpers exampleChain (storeAtRound 5) 5
      exampleRounds exampleWinners exampleTickets (by decide) rfl rfl
      (by intro id h1 h2; interval_cases id <;> rfl)
      (by intro id h1 h2; interval_cases id <;> decide)
      (by
        intro id w h1 h2 hw
        interval_cases id
        · simp [exampleRounds] at hw
        · simp only [exampleRounds] at hw
          simp only [if_true, Option.some.injEq] at hw
          subst hw
          rfl
        · simp [exampleRounds] at hw
        · simp only [exampleRounds] at hw
          simp only [Nat.reduceEqDiff, if_false, if_true, Option.some.injEq] at hw
          subst hw
          rfl
        · simp [exampleRounds] at hw),
    by rfl⟩

/-- C4: when the latest round id is 0 or unset, `getHistory` issues no fetch at
all, builds an empty history, does not throw and leaves the state
`lotteryHistory` as it was. -/
theorem C4_getHistory_no_round (H : Helpers) (chain : Chain) (s : Store)
    (h : s.lotteryId = none ∨ s.lotteryId = some 0) :
    (getHistory H chain s).calls = [] ∧
      (getHistory H chain s).history = [] ∧
      (getHistory H chain s).thrown = none ∧
      (getHistory H chain s).lotteryHistory = s.lotteryHistory := by
  rcases h with h | h <;> simp [getHistory, h]

/-- C4 at the initial store (round id unset) and at round id 0: no fetch, and
the exposed history is the initial empty one. -/
theorem C4_getHistory_no_round_witness :
    ((getHistory exampleHelpers exampleChain Store.initial).calls = [] ∧
      (getHistory exampleHelpers exampleChain Store.initial).history = [] ∧
      (getHistory exampleHelpers exampleChain Store.initial).thrown = none ∧
      (getHistory exampleHelpers exampleChain Store.initial).lotteryHistory =
        Store.initial.lotteryHistory) ∧
    (getHistory exampleHelpers exampleChain Store.initial).lotteryHistory = [] ∧
    (getHistory exampleHelpers exampleChain (storeAtRound 0)).calls = [] :=
  ⟨C4_getHistory_no_round exampleHelpers exampleChain Store.initial (Or.inl rfl), rfl, rfl⟩

/-- C8, as stated, fails: with three rounds that all have a winner and the
account of round 2 missing, `getHistory` throws the fetch error and the
history holds round 3 only, although round 1 can be fetched and has a winner. -/
theorem C8_failure_not_isolated :
    (getHistory exampleHelpers brokenChain (storeAtRound 3)).thrown =
        some "Account does not exist" ∧
      (getHistory exampleHelpers brokenChain (storeAtRound 3)).history.map
        (fun snap => snap.lotteryId) = [3] ∧
      roundFailure exampleHelpers brokenChain 1 = none ∧
      (emitted exampleHelpers brokenChain [] 1).map (fun snap => snap.lotteryId) = [1] := by
  refine ⟨by rfl, by rfl, by rfl, by rfl⟩

/-- Without a roster map (`getParticipants` returned `undefined`) the loop never
pushes a snapshot. -/
theorem historyLoop_undefined_keeps (H : Helpers) (chain : Chain) (n : Nat) :
    ∀ (is : List Nat) (run : HistoryRun),
      (historyLoop H chain n none is run).history = run.history ∧
        (historyLoop H chain n none is run).lotteryHistory = run.lotteryHistory := by
  intro is
  induction is with
  | nil => intro run; simp [historyLoop]
  | cons i rest ih =>
    intro run
    rw [historyLoop]
    by_cases hne : n - i = 0
    · simp [hne]
    · simp only [hne, if_false]
      cases hl : chain.lottery (H.getLotteryAddress (n - i)) with
      | error e => simp
      | ok lottery =>
        cases hw : lottery.winnerId with
        | none =>
          simp only [hw]
          exact ih _
        | some w =>
          by_cases hw0 : w = 0
          · simp only [hw, hw0, if_true]
            exact ih _
          · simp only [hw, hw0, if_false]
            cases ht : chain.ticket (H.getTicketAddress (H.getLotteryAddress (n - i)) w) <;>
              simp

/-- Without a roster map, a scan that meets a failing round throws: at that
round, or earlier at the first round with a winner. -/
theorem historyLoop_undefined_throws (H : Helpers) (chain : Chain) (n : Nat) :
    ∀ (is : List Nat) (run : HistoryRun),
      (∀ i ∈ is, i < n) →
      (∃ i ∈ is, (roundFailure H chain (n - i)).isSome = true) →
      (historyLoop H chain n none is run).thrown.isSome = true := by
  intro is
  induction is with
  | nil => intro run _ h; simp at h
  | cons i rest ih =>
    intro run hlt hex
    have hi := hlt i (List.mem_cons_self _ _)
    have hrest : ∀ j ∈ rest, j < n := fun j hj => hlt j (List.mem_cons_of_mem _ hj)
    have hne : n - i ≠ 0 := by omega
    have htail : roundFailure H chain (n - i) = none →
        ∃ j ∈ rest, (roundFailure H chain (n - j)).isSome = true := by
      intro hnone
      obtain ⟨j, hj, hjf⟩ := hex
      rcases List.mem_cons.1 hj with rfl | hj2
      · simp [hnone] at hjf
      · exact ⟨j, hj2, hjf⟩
    rw [historyLoop]
    simp only [hne, if_false]
    cases hl : chain.lottery (H.getLotteryAddress (n - i)) with
    | error e => simp
    | ok lottery =>
      cases hw : lottery.winnerId with
      | none =>
        simp only [hw]
        exact ih _ hrest (htail (by simp [roundFailure, hl, hw]))
      | some w =>
        by_cases hw0 : w = 0
        · simp only [hw, hw0, if_true]
          exact ih _ hrest (htail (by simp [roundFailure, hl, hw, hw0]))
        · simp only [hw, hw0, if_false]
          cases ht : chain.ticket (H.getTicketAddress (H.getLotteryAddress (n - i)) w) <;>
            simp

/-- C8 amended: `getHistory` does not isolate per-round failures.  When the
fetches of the rounds newer than `k` succeed and a fetch of round `k` (its
record or its winning ticket) fails with `e`, `getHistory` throws to its
caller and builds no snapshot for round `k` or any older round.  If the fetch
of the full ticket set succeeded, the exception is `e`, the history built
holds exactly the snapshots of the rounds `k + 1 .. n` that have a winner,
newest first, and the state `lotteryHistory` is that list when it is not
empty and is left as it was otherwise.  If the fetch of the full ticket set
failed, no snapshot is built at all and `lotteryHistory` is left as it was. -/
theorem C8_getHistory_stops_at_failure (H : Helpers) (chain : Chain) (s : Store) (n k : Nat)
    (e : String)
    (hk : 1 ≤ k) (hkn : k ≤ n) (hid : s.lotteryId = some n)
    (hnewer : ∀ id, k < id → id ≤ n → roundFailure H chain id = none)
    (hfail : roundFailure H chain k = some e) :
    (getHistory H chain s).thrown.isSome = true ∧
      (∀ snap ∈ (getHistory H chain s).history, k < snap.lotteryId) ∧
      (∀ response, chain.ticketAll = .ok response →
        (getHistory H chain s).thrown = some e ∧
        (getHistory H chain s).history =
          (scanIds n (n - k)).flatMap (emitted H chain (groupTickets response)) ∧
        (∀ snap, snap ∈ (getHistory H chain s).history ↔
          ∃ id, k < id ∧ id ≤ n ∧ snap ∈ emitted H chain (groupTickets response) id) ∧
        (getHistory H chain s).lotteryHistory =
          if (scanIds n (n - k)).flatMap (emitted H chain (groupTickets response)) = []
          then s.lotteryHistory
          else (scanIds n (n - k)).flatMap (emitted H chain (groupTickets response))) ∧
      (∀ e2, chain.ticketAll = .error e2 →
        (getHistory H chain s).history = [] ∧
        (getHistory H chain s).lotteryHistory = s.lotteryHistory) := by
  have hn0 : n ≠ 0 := by omega
  have hkk : n - (n - k) = k := by omega
  have hgood : ∀ response, chain.ticketAll = .ok response →
      (getHistory H chain s).thrown = some e ∧
      (getHistory H chain s).history =
        (scanIds n (n - k)).flatMap (emitted H chain (groupTickets response)) ∧
      (∀ snap, snap ∈ (getHistory H chain s).history ↔
        ∃ id, k < id ∧ id ≤ n ∧ snap ∈ emitted H chain (groupTickets response) id) ∧
      (getHistory H chain s).lotteryHistory =
        if (scanIds n (n - k)).flatMap (emitted H chain (groupTickets response)) = []
        then s.lotteryHistory
        else (scanIds n (n - k)).flatMap (emitted H chain (groupTickets response)) := by
    intro response hall
    have hp : getParticipants chain = some (groupTickets response) := by
      simp [getParticipants, hall]
    obtain ⟨rest, hsplit⟩ := range_split n k hk hkn
    have hpre : ∀ i ∈ List.range (n - k), i < n ∧ roundFailure H chain (n - i) = none := by
      intro i hi
      rw [List.mem_range] at hi
      exact ⟨by omega, hnewer (n - i) (by omega) (by omega)⟩
    have hrun : getHistory H chain s =
        historyLoop H chain n (some (groupTickets response)) ((n - k) :: rest)
          (historyLoop H chain n (some (groupTickets response)) (List.range (n - k))
            { calls := [Call.ticketAll], history := [], lotteryHistory := s.lotteryHistory,
              thrown := none }) := by
      simp only [getHistory, hid, hn0, if_false, hp]
      rw [hsplit]
      exact historyLoop_append_ok H chain n (groupTickets response) _ _ _ hpre
    obtain ⟨f1, f2, f3⟩ := historyLoop_fail_head H chain n (some (groupTickets response))
      (n - k) rest (historyLoop H chain n (some (groupTickets response)) (List.range (n - k))
        { calls := [Call.ticketAll], history := [], lotteryHistory := s.lotteryHistory,
          thrown := none }) e (by omega) (by rw [hkk]; exact hfail)
    obtain ⟨g1, _, g3⟩ := historyLoop_ok H chain n (groupTickets response)
      (List.range (n - k))
      { calls := [Call.ticketAll], history := [], lotteryHistory := s.lotteryHistory,
        thrown := none } hpre
    rw [flatMap_scanIds] at g1 g3
    have hhist : (getHistory H chain s).history =
        (scanIds n (n - k)).flatMap (emitted H chain (groupTickets response)) := by
      rw [hrun, f1, g1]
      simp
    refine ⟨by rw [hrun, f3], hhist, ?_, ?_⟩
    · intro snap
      rw [hhist, List.mem_flatMap]
      constructor
      · rintro ⟨id, hid2, hs⟩
        rw [mem_scanIds n (n - k) id (by omega)] at hid2
        exact ⟨id, by omega, hid2.2, hs⟩
      · rintro ⟨id, h1, h2, hs⟩
        exact ⟨id, (mem_scanIds n (n - k) id (by omega)).2 ⟨by omega, h2⟩, hs⟩
    · rw [hrun, f2, g3]
      simp
  have hbad : ∀ e2, chain.ticketAll = .error e2 →
      (getHistory H chain s).thrown.isSome = true ∧
      (getHistory H chain s).history = [] ∧
      (getHistory H chain s).lotteryHistory = s.lotteryHistory := by
    intro e2 hall
    have hp : getParticipants chain = none := by
      simp [getParticipants, hall]
    simp only [getHistory, hid, hn0, if_false, hp]
    refine ⟨?_, ?_, ?_⟩
    · apply historyLoop_undefined_throws
      · intro i hi
        exact List.mem_range.1 hi
      · refine ⟨n - k, List.mem_range.2 (by omega), ?_⟩
        rw [hkk, hfail]
        rfl
    · exact (historyLoop_undefined_keeps H chain n _ _).1
    · exact (historyLoop_undefined_keeps H chain n _ _).2
  refine ⟨?_, ?_, hgood, fun e2 h2 => (hbad e2 h2).2⟩
  · cases hall : chain.ticketAll with
    | ok response => rw [(hgood response hall).1]; rfl
    | error e2 => exact (hbad e2 hall).1
  · intro snap hs
    cases hall : chain.ticketAll with
    | ok response =>
      obtain ⟨id, h1, _, hmem⟩ := ((hgood response hall).2.2.1 snap).1 hs
      rw [mem_emitted_lotteryId H chain _ id snap hmem]
      exact h1
    | error e2 =>
      rw [(hbad e2 hall).2.1] at hs
      simp at hs

/-- C8 amended, at three rounds with the account of round 2 missing, and at a
scan from round 2 that fails at once in a store that already shows a snapshot
of round 2: that snapshot stays in `lotteryHistory`. -/
theorem C8_getHistory_stops_at_failure_witness :
    ((getHistory exampleHelpers brokenChain (storeAtRound 3)).thrown.isSome = true ∧
      (∀ snap ∈ (getHistory exampleHelpers brokenChain (storeAtRound 3)).history,
        2 < snap.lotteryId) ∧
      ((getHistory exampleHelpers brokenChain (storeAtRound 3)).thrown =
          some "Account does not exist" ∧
        (getHistory exampleHelpers brokenChain (storeAtRound 3)).history =
          (scanIds 3 (3 - 2)).flatMap (emitted exampleHelpers brokenChain (groupTickets [])) ∧
        (∀ snap, snap ∈ (getHistory exampleHelpers brokenChain (storeAtRound 3)).history ↔
          ∃ id, 2 < id ∧ id ≤ 3 ∧
            snap ∈ emitted exampleHelpers brokenChain (groupTickets []) id) ∧
        (getHistory exampleHelpers brokenChain (storeAtRound 3)).lotteryHistory =
          if (scanIds 3 (3 - 2)).flatMap
              (emitted exampleHelpers brokenChain (groupTickets [])) = []
          then (storeAtRound 3).lotteryHistory
          else (scanIds 3 (3 - 2)).flatMap
              (emitted exampleHelpers brokenChain (groupTickets [])))) ∧
    ((getHistory exampleHelpers brokenChain storeWithHistory).lotteryHistory =
        if (scanIds 2 (2 - 2)).flatMap
            (emitted exampleHelpers brokenChain (groupTickets [])) = []
        then storeWithHistory.lotteryHistory
        else (scanIds 2 (2 - 2)).flatMap
            (emitted exampleHelpers brokenChain (groupTickets []))) ∧
    (getHistory exampleHelpers brokenChain storeWithHistory).history = [] ∧
    (getHistory exampleHelpers brokenChain storeWithHistory).lotteryHistory.map
      (fun snap => snap.lotteryId) = [2] :=
  ⟨⟨(C8_getHistory_stops_at_failure exampleHelpers brokenChain (storeAtRound 3) 3 2
        "Account does not exist" (by decide) (by decide) rfl
        (by intro id h1 h2; interval_cases id; rfl) (by rfl)).1,
      (C8_getHistory_stops_at_failure exampleHelpers brokenChain (storeAtRound 3) 3 2
        "Account does not exist" (by decide) (by decide) rfl
        (by intro id h1 h2; interval_cases id; rfl) (by rfl)).2.1,
      (C8_getHistory_stops_at_failure exampleHelpers brokenChain (storeAtRound 3) 3 2
        "Account does not exist" (by decide) (by decide) rfl
        (by intro id h1 h2; interval_cases id; rfl) (by rfl)).2.2.1 [] rfl⟩,
    ((C8_getHistory_stops_at_failure exampleHelpers brokenChain storeWithHistory 2 2
        "Account does not exist" (by decide) (by decide) rfl
        (by intro id h1 h2; omega) (by rfl)).2.2.1 [] rfl).2.2.2,
    by rfl, by rfl⟩

/-! ## Claims on `updateState` and the derived values -/

/-- What a full run of `updateState` with a connected wallet stores: the round
of the master record read in this run, and an eligibility computed from the
tickets returned for the round id found in the closure, `s.lotteryId`. -/
theorem updateState_connected (H : Helpers) (chain : Chain) (publicKey : Address) (s : Store)
    (master : Master) (lottery : LotteryAccount) (userTickets : List TicketItem)
    (hm : chain.master (s.masterAddress.getD H.getMasterAddress) = .ok master)
    (hl : chain.lottery (H.getLotteryAddress master.lastId) = .ok lottery)
    (ht : chain.ticketAllBy (filterLotteryId s.lotteryId) publicKey = .ok userTickets) :
    (updateState H (some chain) (some publicKey) s).store.snapshot =
      (true, some master.lastId, some (H.getLotteryAddress master.lastId), some lottery,
        if userTickets.any (fun t => some t.account.id == lottery.winnerId)
        then WinningId.ofWinner lottery.winnerId else WinningId.null) := by
  simp only [updateState, updateStateTry, hm, hl, ht, Store.snapshot]
  split <;> rfl

/-- The exposed `canClaim` after such a run, in terms of the tickets the run
tested. -/
theorem canClaim_after_updateState (H : Helpers) (chain : Chain) (publicKey : Address)
    (s : Store) (master : Master) (lottery : LotteryAccount) (userTickets : List TicketItem)
    (hm : chain.master (s.masterAddress.getD H.getMasterAddress) = .ok master)
    (hl : chain.lottery (H.getLotteryAddress master.lastId) = .ok lottery)
    (ht : chain.ticketAllBy (filterLotteryId s.lotteryId) publicKey = .ok userTickets) :
    canClaim (updateState H (some chain) (some publicKey) s).store =
      (truthy lottery.winnerId && !lottery.claimed &&
        userTickets.any (fun t => some t.account.id == lottery.winnerId)) := by
  have h := updateState_connected H chain publicKey s master lottery userTickets hm hl ht
  simp only [Store.snapshot, Prod.mk.injEq] at h
  obtain ⟨_, _, _, h4, h5⟩ := h
  simp only [canClaim, h4, h5]
  by_cases hany : userTickets.any (fun t => some t.account.id == lottery.winnerId) = true
  · simp only [hany, if_true, Bool.and_true]
    cases hw : lottery.winnerId with
    | none => simp [WinningId.ofWinner, WinningId.truthy, truthy]
    | some w => simp [WinningId.ofWinner, WinningId.truthy, truthy, Bool.and_comm]
  · simp only [hany]
    simp [WinningId.truthy]

/-- A claimed round never exposes a truthy `canClaim`. -/
theorem canClaim_false_of_claimed (s : Store) (lottery : LotteryAccount)
    (h : s.lottery = some lottery) (hc : lottery.claimed = true) : canClaim s = false := by
  simp [canClaim, h, hc]

/-- C5, failing input: user 50 holds tickets 3 and 7 of round 2, whose winner is
ticket 7 and which is not claimed.  A synchronization started from a store
whose `lotteryId` is still unset, or still 1, fetches the tickets of round 0,
or 1, finds none and leaves `canClaim` falsy; started from a store whose
`lotteryId` is already 2 it makes `canClaim` truthy. -/
theorem C5_canClaim_after_first_sync :
    claimChain.ticketAllBy 2 50 =
        .ok [ { publicKey := 102003, account := { id := 3, lotteryId := 2, authority := 50 } },
              { publicKey := 102007, account := { id := 7, lotteryId := 2, authority := 50 } } ] ∧
      (updateState exampleHelpers (some claimChain) (some 50) Store.initial).store.lottery =
        some roundTwo ∧
      roundTwo.winnerId = some 7 ∧ roundTwo.claimed = false ∧
      canClaim (updateState exampleHelpers (some claimChain) (some 50) Store.initial).store =
        false ∧
      canClaim (updateState exampleHelpers (some claimChain) (some 50) (storeAtRound 1)).store =
        false ∧
      canClaim (updateState exampleHelpers (some claimChain) (some 50) (storeAtRound 2)).store =
        true := by
  refine ⟨by rfl, by rfl, by rfl, by rfl, by rfl, by rfl, by rfl⟩

/-- C6, failing input: the store is synchronized on round 1, the master record
now says round 2, and user 60 holds ticket 7 of round 1 and no ticket of
round 2.  The cycle stores round 2 and its record (winner ticket 7) but tests
the tickets of round 1, so it sets `userWinningId` to 7 and `canClaim` is
truthy. -/
theorem C6_eligibility_tests_closure_round :
    (updateState exampleHelpers (some claimChain) (some 60) syncedOnRoundOne).store.lotteryId =
        some 2 ∧
      (updateState exampleHelpers (some claimChain) (some 60) syncedOnRoundOne).store.lottery =
        some roundTwo ∧
      claimChain.ticketAllBy 2 60 = .ok [] ∧
      claimChain.ticketAllBy 1 60 =
        .ok [ { publicKey := 101007,
                account := { id := 7, lotteryId := 1, authority := 60 } } ] ∧
      (updateState exampleHelpers (some claimChain) (some 60)
        syncedOnRoundOne).store.userWinningId = WinningId.id 7 ∧
      canClaim (updateState exampleHelpers (some claimChain) (some 60) syncedOnRoundOne).store =
        true := by
  refine ⟨by rfl, by rfl, by rfl, by rfl, by rfl, by rfl⟩

/-- C7: when the master fetch of `updateState` fails (for instance with a
not-found error) in a store where the master is not initialized, the call
completes without throwing, `isMasterInitialized` stays false, and the round
id, round address, round record, eligibility, history and messages are
unchanged. -/
theorem C7_master_not_found (H : Helpers) (chain : Chain) (wallet : Option Address) (s : Store)
    (e : String) (hinit : s.intialized = false)
    (hfail : chain.master (s.masterAddress.getD H.getMasterAddress) = .error e) :
    (updateState H (some chain) wallet s).thrown = none ∧
      (updateState H (some chain) wallet s).store.intialized = false ∧
      (updateState H (some chain) wallet s).store.snapshot = s.snapshot ∧
      (updateState H (some chain) wallet s).store.lotteryHistory = s.lotteryHistory ∧
      (updateState H (some chain) wallet s).store.error = s.error ∧
      (updateState H (some chain) wallet s).store.success = s.success := by
  simp only [updateState, updateStateTry, hfail, Store.snapshot]
  cases hma : s.masterAddress <;> simp [hinit]

/-- C7 at the initial store and a program without master account. -/
theorem C7_master_not_found_witness :
    (updateState exampleHelpers (some uninitializedChain) (some 50) Store.initial).thrown =
        none ∧
      (updateState exampleHelpers (some uninitializedChain) (some 50)
        Store.initial).store.intialized = false ∧
      (updateState exampleHelpers (some uninitializedChain) (some 50)
        Store.initial).store.snapshot = Store.initial.snapshot ∧
      (updateState exampleHelpers (some uninitializedChain) (some 50)
        Store.initial).store.lotteryHistory = Store.initial.lotteryHistory ∧
      (updateState exampleHelpers (some uninitializedChain) (some 50)
        Store.initial).store.error = Store.initial.error ∧
      (updateState exampleHelpers (some uninitializedChain) (some 50)
        Store.initial).store.success = Store.initial.success :=
  C7_master_not_found exampleHelpers uninitializedChain (some 50) Store.initial
    "Account does not exist" rfl rfl

/-! ## Claims on the actions -/

/-- The synchronization writes neither the messages nor the history. -/
theorem updateStateTry_messages (H : Helpers) (chain : Chain) (wallet : Option Address)
    (s : Store) :
    (updateStateTry H chain wallet s).1.error = s.error ∧
      (updateStateTry H chain wallet s).1.success = s.success ∧
      (updateStateTry H chain wallet s).1.lotteryHistory = s.lotteryHistory := by
  unfold updateStateTry
  cases s.masterAddress <;>
    cases chain.master (Option.getD _ H.getMasterAddress) <;> dsimp only <;>
    repeat (first | exact ⟨rfl, rfl, rfl⟩ | split)

/-- The transaction part of an action can only succeed with a program and a
connected wallet: it reads `program.methods` and `wallet.publicKey`. -/
theorem actionTry_ok (program : Option Chain) (wallet : Option Address)
    (submit : Action → Submission) (a : Action) (s : Store)
    (h : actionTry program wallet submit a s = .ok ()) :
    ∃ chain publicKey, program = some chain ∧ wallet = some publicKey := by
  cases program with
  | none =>
    exfalso
    cases a <;>
      simp only [actionTry, initMasterTry, createLotteryTry, buyTicketTry, pickWinnerTry,
        claimPrizeTry, readProperty, bind, Except.bind] at h <;>
      (first | contradiction | (repeat (split at h <;> try contradiction)))
  | some chain =>
    cases wallet with
    | none =>
      exfalso
      cases a <;>
        simp only [actionTry, initMasterTry, createLotteryTry, buyTicketTry, pickWinnerTry,
          claimPrizeTry, readProperty, bind, Except.bind] at h <;>
        (first | contradiction | (repeat (split at h <;> try contradiction)))
    | some publicKey => exact ⟨chain, publicKey, rfl, rfl⟩

/-- The shape shared by the five actions. -/
theorem runAction_eq (H : Helpers) (program : Option Chain) (wallet : Option Address)
    (submit : Action → Submission) (a : Action) (s : Store) :
    runAction H program wallet submit a s =
      match actionTry program wallet submit a s with
      | .error message =>
        { store := { s with error := message, success := "" }, thrown := none }
      | .ok _ => updateState H program wallet { s with error := "", success := "" } := by
  cases a <;> rfl

/-- A run of `updateState` whose ticket query fails stores the new round and
its record and leaves the eligibility as it was. -/
theorem updateState_tickets_fail (H : Helpers) (chain : Chain) (publicKey : Address) (s : Store)
    (master : Master) (lottery : LotteryAccount) (e : String)
    (hm : chain.master (s.masterAddress.getD H.getMasterAddress) = .ok master)
    (hl : chain.lottery (H.getLotteryAddress master.lastId) = .ok lottery)
    (ht : chain.ticketAllBy (filterLotteryId s.lotteryId) publicKey = .error e) :
    (updateState H (some chain) (some publicKey) s).store.snapshot =
      (true, some master.lastId, some (H.getLotteryAddress master.lastId), some lottery,
        s.userWinningId) := by
  simp only [updateState, updateStateTry, hm, hl, ht, Store.snapshot]
  cases hma : s.masterAddress <;> rfl

/-- C9, as stated, fails: the round authority (wallet 9) runs `createLottery`
on a store synchronized on round 1; the transaction succeeds and the master
record now says round 2, but the fetch of the account of round 2 fails.  The
post-action synchronization throws inside `updateState` after it has stored
the new round id and address, so the store holds round id 2 together with the
record of round 1: neither the prior snapshot nor that of a completed
synchronization. -/
theorem C9_half_updated_snapshot :
    actionTry (some claimChainNoRound) (some 9) submitOk .createLottery syncedOnRoundOne =
        .ok () ∧
      (updateStateTry exampleHelpers claimChainNoRound (some 9)
        { syncedOnRoundOne with error := "", success := "" }).2 =
        some "Network request failed" ∧
      (runAction exampleHelpers (some claimChainNoRound) (some 9) submitOk .createLottery
        syncedOnRoundOne).store.snapshot ≠ syncedOnRoundOne.snapshot ∧
      (runAction exampleHelpers (some claimChainNoRound) (some 9) submitOk .createLottery
        syncedOnRoundOne).store.lotteryId = some 2 ∧
      (runAction exampleHelpers (some claimChainNoRound) (some 9) submitOk .createLottery
        syncedOnRoundOne).store.lotteryAddress = some 102 ∧
      (runAction exampleHelpers (some claimChainNoRound) (some 9) submitOk .createLottery
        syncedOnRoundOne).store.lottery = syncedOnRoundOne.lottery ∧
      syncedOnRoundOne.lottery = some roundOne ∧ roundOne.id = 1 := by
  refine ⟨by rfl, by rfl, by decide, by rfl, by rfl, by rfl, by rfl, by rfl⟩

/-- C9 amended: an action never throws to its caller.  When its transaction
part fails (as it always does without a program or without a connected
wallet), the message is stored in `error` and the snapshot fields are the
prior ones.  When it succeeds, `error` is empty, a program and a wallet are
present, and the post-action synchronization is applied setter by setter with
no rollback: the snapshot is the prior one if the master fetch fails; it has
the initialized flag, round id and round address of the new master record with
the prior round record and eligibility if the round fetch fails; it has those
and the new round record with the prior eligibility if the ticket query fails;
and it is that of the complete synchronization if every fetch succeeds. -/
theorem C9_action_outcome (H : Helpers) (program : Option Chain) (wallet : Option Address)
    (submit : Action → Submission) (a : Action) (s : Store) :
    (runAction H program wallet submit a s).thrown = none ∧
      (∀ message, actionTry program wallet submit a s = .error message →
        (runAction H program wallet submit a s).store.error = message ∧
        (runAction H program wallet submit a s).store.snapshot = s.snapshot) ∧
      (program = none ∨ wallet = none →
        ∃ message, actionTry program wallet submit a s = .error message) ∧
      (actionTry program wallet submit a s = .ok () →
        (runAction H program wallet submit a s).store.error = "" ∧
        ∃ chain publicKey, program = some chain ∧ wallet = some publicKey ∧
          (∀ e, chain.master (s.masterAddress.getD H.getMasterAddress) = .error e →
            (runAction H program wallet submit a s).store.snapshot = s.snapshot) ∧
          (∀ master e, chain.master (s.masterAddress.getD H.getMasterAddress) = .ok master →
            chain.lottery (H.getLotteryAddress master.lastId) = .error e →
            (runAction H program wallet submit a s).store.snapshot =
              (true, some master.lastId, some (H.getLotteryAddress master.lastId), s.lottery,
                s.userWinningId)) ∧
          (∀ master lottery e,
            chain.master (s.masterAddress.getD H.getMasterAddress) = .ok master →
            chain.lottery (H.getLotteryAddress master.lastId) = .ok lottery →
            chain.ticketAllBy (filterLotteryId s.lotteryId) publicKey = .error e →
            (runAction H program wallet submit a s).store.snapshot =
              (true, some master.lastId, some (H.getLotteryAddress master.lastId),
                some lottery, s.userWinningId)) ∧
          (∀ master lottery userTickets,
            chain.master (s.masterAddress.getD H.getMasterAddress) = .ok master →
            chain.lottery (H.getLotteryAddress master.lastId) = .ok lottery →
            chain.ticketAllBy (filterLotteryId s.lotteryId) publicKey = .ok userTickets →
            (runAction H program wallet submit a s).store.snapshot =
              (true, some master.lastId, some (H.getLotteryAddress master.lastId),
                some lottery,
                if userTickets.any (fun t => some t.account.id == lottery.winnerId)
                then WinningId.ofWinner lottery.winnerId else WinningId.null))) := by
  have hshape := runAction_eq H program wallet submit a s
  refine ⟨?_, ?_, ?_, ?_⟩
  · rw [hshape]
    cases hs : actionTry program wallet submit a s <;> cases program <;> simp [updateState]
  · intro message hs
    simp [hshape, hs, Store.snapshot]
  · intro hnone
    cases hs : actionTry program wallet submit a s with
    | error message => exact ⟨message, rfl⟩
    | ok u =>
      exfalso
      obtain ⟨chain, publicKey, hp, hw⟩ := actionTry_ok program wallet submit a s hs
      rcases hnone with h | h
      · rw [hp] at h
        cases h
      · rw [hw] at h
        cases h
  · intro hs
    obtain ⟨chain, publicKey, hp, hw⟩ := actionTry_ok program wallet submit a s hs
    subst hp
    subst hw
    have hrun : runAction H (some chain) (some publicKey) submit a s =
        updateState H (some chain) (some publicKey) { s with error := "", success := "" } := by
      simp [hshape, hs]
    rw [hrun]
    refine ⟨?_, chain, publicKey, rfl, rfl, ?_, ?_, ?_, ?_⟩
    · exact (updateStateTry_messages H chain (some publicKey)
        { s with error := "", success := "" }).1
    · intro e he
      simp only [updateState, updateStateTry, he, Store.snapshot]
      cases hma : s.masterAddress <;> rfl
    · intro master e hm hl
      simp only [updateState, updateStateTry, hm, hl, Store.snapshot]
      cases hma : s.masterAddress <;> rfl
    · intro master lottery e hm hl ht
      exact updateState_tickets_fail H chain publicKey { s with error := "", success := "" }
        master lottery e hm hl ht
    · intro master lottery userTickets hm hl ht
      exact updateState_connected H chain publicKey { s with error := "", success := "" }
        master lottery userTickets hm hl ht

/-- C9 amended, at `createLottery` run by wallet 9 on a store synchronized on
round 1: with a rejected transaction, without a wallet, with the round fetch
failing after the transaction, and with the ticket query failing after it. -/
theorem C9_action_outcome_witness :
    (runAction exampleHelpers (some claimChainNoRound) (some 9) submitRejected .createLottery
        syncedOnRoundOne).thrown = none ∧
      ((runAction exampleHelpers (some claimChainNoRound) (some 9) submitRejected
          .createLottery syncedOnRoundOne).store.error = "Transaction simulation failed" ∧
        (runAction exampleHelpers (some claimChainNoRound) (some 9) submitRejected
          .createLottery syncedOnRoundOne).store.snapshot = syncedOnRoundOne.snapshot) ∧
      (∃ message, actionTry (some claimChainNoRound) none submitOk .createLottery
        syncedOnRoundOne = .error message) ∧
      (runAction exampleHelpers (some claimChainNoRound) (some 9) submitOk .createLottery
        syncedOnRoundOne).store.error = "" ∧
      (runAction exampleHelpers (some claimChainNoRound) (some 9) submitOk .createLottery
        syncedOnRoundOne).store.snapshot =
        (true, some 2, some 102, some roundOne, WinningId.null) ∧
      (runAction exampleHelpers (some claimChainNoTickets) (some 9) submitOk .createLottery
        syncedOnRoundOne).store.snapshot =
        (true, some 2, some 102, some roundTwo, WinningId.null) :=
  ⟨(C9_action_outcome exampleHelpers (some claimChainNoRound) (some 9) submitRejected
      .createLottery syncedOnRoundOne).1,
    (C9_action_outcome exampleHelpers (some claimChainNoRound) (some 9) submitRejected
      .createLottery syncedOnRoundOne).2.1 "Transaction simulation failed" rfl,
    (C9_action_outcome exampleHelpers (some claimChainNoRound) none submitOk
      .createLottery syncedOnRoundOne).2.2.1 (Or.inr rfl),
    ((C9_action_outcome exampleHelpers (some claimChainNoRound) (some 9) submitOk
      .createLottery syncedOnRoundOne).2.2.2 rfl).1,
    by
      obtain ⟨chain, publicKey, hp, hw, _, h2, _, _⟩ :=
        ((C9_action_outcome exampleHelpers (some claimChainNoRound) (some 9) submitOk
          .createLottery syncedOnRoundOne).2.2.2 rfl).2
      cases hp
      cases hw
      exact h2 { lastId := 2 } "Network request failed" rfl rfl,
    by
      obtain ⟨chain, publicKey, hp, hw, _, _, h3, _⟩ :=
        ((C9_action_outcome exampleHelpers (some claimChainNoTickets) (some 9) submitOk
          .createLottery syncedOnRoundOne).2.2.2 rfl).2
      cases hp
      cases hw
      exact h3 { lastId := 2 } roundTwo "Network request failed" rfl rfl rfl⟩

/-! ## Claims on overlapping synchronization cycles -/

/-- A cycle that runs alone against an unchanging program leaves the store that
`updateState` computes. -/
theorem cycle_alone_eq_updateState (H : Helpers) (chain : Chain) (wallet : Option Address)
    (s : Store) :
    (Race.run H s [.start .A wallet, .resolve .A chain, .resolve .A chain,
        .resolve .A chain]).store =
      (updateState H (some chain) wallet s).store := by
  simp only [Race.run, List.foldl, Race.step, Cycle.start, updateState, updateStateTry]
  cases hm : chain.master (s.masterAddress.getD H.getMasterAddress) with
  | error e => simp [Cycle.resume, hm]
  | ok master =>
    simp only [Cycle.resume, hm]
    cases hl : chain.lottery (H.getLotteryAddress master.lastId) with
    | error e => simp [Cycle.resume, hl]
    | ok lottery =>
      cases wallet with
      | none => simp [Cycle.resume, hl]
      | some publicKey =>
        simp only [Cycle.resume, hl]
        cases ht : chain.ticketAllBy (filterLotteryId s.lotteryId) publicKey with
        | error e => simp [Cycle.resume, ht]
        | ok userTickets =>
          simp only [Cycle.resume, ht]
          split <;> rfl

/-- C10, as stated, fails: cycle A starts and reads the master record while
round 1 is the latest round; cycle B starts before A has resolved, runs to its
end and stores round 2 with its record; then the lottery fetch of A is
answered and A stores the record of round 1.  The final store holds the round
id of B with the round record of A. -/
theorem C10_stale_cycle_overwrites_newer :
    (Race.run exampleHelpers Store.initial raceUntilB).cycleA =
        some (Cycle.awaitLottery 101 none none) ∧
      (Race.run exampleHelpers Store.initial raceUntilB).cycleB = some Cycle.finished ∧
      (Race.run exampleHelpers Store.initial raceUntilB).store.lotteryId = some 2 ∧
      (Race.run exampleHelpers Store.initial raceUntilB).store.lottery = some roundTwo ∧
      (Race.run exampleHelpers Store.initial raceEvents).cycleA = some Cycle.finished ∧
      (Race.run exampleHelpers Store.initial raceEvents).store.lotteryId = some 2 ∧
      (Race.run exampleHelpers Store.initial raceEvents).store.lottery = some roundOne ∧
      roundOne ≠ roundTwo := by
  refine ⟨by rfl, by rfl, by rfl, by rfl, by rfl, by rfl, by rfl, by decide⟩

/-- C10 amended: there is no generation guard.  Whenever the pending fetch of a
cycle is answered, its continuation applies its setters to the store as it is
then, whatever the other cycle has done: the answer of the master fetch
overwrites the initialized flag, round id and round address, the answer of the
lottery fetch overwrites the round record, and the answer of the ticket fetch
overwrites the eligibility, computed from the round record that this cycle
fetched. -/
theorem C10_resumed_cycle_overwrites (H : Helpers) (r : Race) (chain : Chain) :
    (∀ address lid wallet master, r.cycleA = some (.awaitMaster address lid wallet) →
        chain.master address = .ok master →
        (Race.step H r (.resolve .A chain)).store =
          { r.store with intialized := true, lotteryId := some master.lastId,
                         lotteryAddress := some (H.getLotteryAddress master.lastId) }) ∧
      (∀ address lid wallet lottery, r.cycleA = some (.awaitLottery address lid wallet) →
        chain.lottery address = .ok lottery →
        (Race.step H r (.resolve .A chain)).store = { r.store with lottery := some lottery }) ∧
      (∀ lottery lid publicKey userTickets,
        r.cycleA = some (.awaitTickets lottery lid publicKey) →
        chain.ticketAllBy (filterLotteryId lid) publicKey = .ok userTickets →
        (Race.step H r (.resolve .A chain)).store =
          { r.store with userWinningId :=
              if userTickets.any (fun t => some t.account.id == lottery.winnerId)
              then WinningId.ofWinner lottery.winnerId else WinningId.null }) := by
  refine ⟨?_, ?_, ?_⟩
  · intro address lid wallet master hc hm
    simp [Race.step, hc, Cycle.resume, hm]
  · intro address lid wallet lottery hc hl
    cases wallet <;> simp [Race.step, hc, Cycle.resume, hl]
  · intro lottery lid publicKey userTickets hc ht
    simp only [Race.step, hc, Cycle.resume, ht]
    split <;> rfl

/-- C10 amended, at the race of the counterexample: the late answer to the
lottery fetch of cycle A replaces the round record stored by cycle B. -/
theorem C10_resumed_cycle_overwrites_witness :
    (Race.step exampleHelpers (Race.run exampleHelpers Store.initial raceUntilB)
        (.resolve .A claimChain)).store =
      { (Race.run exampleHelpers Store.initial raceUntilB).store with
        lottery := some roundOne } :=
  (C10_resumed_cycle_overwrites exampleHelpers
    (Race.run exampleHelpers Store.initial raceUntilB) claimChain).2.1 101 none none roundOne
    rfl rfl

end Lottery
